import Mathlib

/-! dSPIN (L6470) command and register protocol

A shallow embedding of the constant tables of `dSPIN.h` (command opcodes,
register addresses, status-word masks, direction and action options) and
of the command layer built on them, followed by the properties checked
against them.

Every `#define` of the header used below is a definition of the same name
holding the same integer; C's `|`, `&` and `<<` on these non-negative
values are `|||`, `&&&` and `<<<` on `Nat`.
-/

namespace DSpin

/-! ## dSPIN.h: status register bit renames (lines 203-227) -/

def dSPIN_STATUS_HIZ : Nat := 0x0001
def dSPIN_STATUS_BUSY : Nat := 0x0002
def dSPIN_STATUS_SW_F : Nat := 0x0004
def dSPIN_STATUS_SW_EVN : Nat := 0x0008
def dSPIN_STATUS_DIR : Nat := 0x0010
def dSPIN_STATUS_NOTPERF_CMD : Nat := 0x0080
def dSPIN_STATUS_WRONG_CMD : Nat := 0x0100
def dSPIN_STATUS_UVLO : Nat := 0x0200
def dSPIN_STATUS_TH_WRN : Nat := 0x0400
def dSPIN_STATUS_TH_SD : Nat := 0x0800
def dSPIN_STATUS_OCD : Nat := 0x1000
def dSPIN_STATUS_STEP_LOSS_A : Nat := 0x2000
def dSPIN_STATUS_STEP_LOSS_B : Nat := 0x4000
def dSPIN_STATUS_SCK_MOD : Nat := 0x8000

/-- Field mask of the motor status field, `#define dSPIN_STATUS_MOT_STATUS 0x0060`. -/
def dSPIN_STATUS_MOT_STATUS : Nat := 0x0060
/-- Motor stopped, `(0x0000)<<13` in the header. -/
def dSPIN_STATUS_MOT_STATUS_STOPPED : Nat := 0x0000 <<< 13
/-- Motor accelerating, `(0x0001)<<13` in the header. -/
def dSPIN_STATUS_MOT_STATUS_ACCELERATION : Nat := 0x0001 <<< 13
/-- Motor decelerating, `(0x0002)<<13` in the header. -/
def dSPIN_STATUS_MOT_STATUS_DECELERATION : Nat := 0x0002 <<< 13
/-- Motor at constant speed, `(0x0003)<<13` in the header. -/
def dSPIN_STATUS_MOT_STATUS_CONST_SPD : Nat := 0x0003 <<< 13

/-- The fourteen single-flag masks of the status word, in header order. -/
def statusFlags : List Nat :=
  [dSPIN_STATUS_HIZ, dSPIN_STATUS_BUSY, dSPIN_STATUS_SW_F, dSPIN_STATUS_SW_EVN,
   dSPIN_STATUS_DIR, dSPIN_STATUS_NOTPERF_CMD, dSPIN_STATUS_WRONG_CMD,
   dSPIN_STATUS_UVLO, dSPIN_STATUS_TH_WRN, dSPIN_STATUS_TH_SD, dSPIN_STATUS_OCD,
   dSPIN_STATUS_STEP_LOSS_A, dSPIN_STATUS_STEP_LOSS_B, dSPIN_STATUS_SCK_MOD]

/-- The four motor status constants, in header order. -/
def motStatusValues : List Nat :=
  [dSPIN_STATUS_MOT_STATUS_STOPPED, dSPIN_STATUS_MOT_STATUS_ACCELERATION,
   dSPIN_STATUS_MOT_STATUS_DECELERATION, dSPIN_STATUS_MOT_STATUS_CONST_SPD]

/-! ## dSPIN.h: register address redefines (lines 229-255) -/

def dSPIN_ABS_POS : Nat := 0x01
def dSPIN_EL_POS : Nat := 0x02
def dSPIN_MARK : Nat := 0x03
def dSPIN_SPEED : Nat := 0x04
def dSPIN_ACC : Nat := 0x05
def dSPIN_DEC : Nat := 0x06
def dSPIN_MAX_SPEED : Nat := 0x07
def dSPIN_MIN_SPEED : Nat := 0x08
def dSPIN_FS_SPD : Nat := 0x15
def dSPIN_KVAL_HOLD : Nat := 0x09
def dSPIN_KVAL_RUN : Nat := 0x0A
def dSPIN_KVAL_ACC : Nat := 0x0B
def dSPIN_KVAL_DEC : Nat := 0x0C
def dSPIN_INT_SPD : Nat := 0x0D
def dSPIN_ST_SLP : Nat := 0x0E
def dSPIN_FN_SLP_ACC : Nat := 0x0F
def dSPIN_FN_SLP_DEC : Nat := 0x10
def dSPIN_K_THERM : Nat := 0x11
def dSPIN_ADC_OUT : Nat := 0x12
def dSPIN_OCD_TH : Nat := 0x13
def dSPIN_STALL_TH : Nat := 0x14
def dSPIN_STEP_MODE : Nat := 0x16
def dSPIN_ALARM_EN : Nat := 0x17
def dSPIN_CONFIG : Nat := 0x18
def dSPIN_STATUS : Nat := 0x19

/-- Every register address the header defines, in header order. -/
def registerAddresses : List Nat :=
  [dSPIN_ABS_POS, dSPIN_EL_POS, dSPIN_MARK, dSPIN_SPEED, dSPIN_ACC, dSPIN_DEC,
   dSPIN_MAX_SPEED, dSPIN_MIN_SPEED, dSPIN_FS_SPD, dSPIN_KVAL_HOLD, dSPIN_KVAL_RUN,
   dSPIN_KVAL_ACC, dSPIN_KVAL_DEC, dSPIN_INT_SPD, dSPIN_ST_SLP, dSPIN_FN_SLP_ACC,
   dSPIN_FN_SLP_DEC, dSPIN_K_THERM, dSPIN_ADC_OUT, dSPIN_OCD_TH, dSPIN_STALL_TH,
   dSPIN_STEP_MODE, dSPIN_ALARM_EN, dSPIN_CONFIG, dSPIN_STATUS]

/-! ## dSPIN.h: commands, directions, actions (lines 257-284) -/

def dSPIN_NOP : Nat := 0x00
def dSPIN_SET_PARAM : Nat := 0x00
def dSPIN_GET_PARAM : Nat := 0x20
def dSPIN_RUN : Nat := 0x50
def dSPIN_STEP_CLOCK : Nat := 0x58
def dSPIN_MOVE : Nat := 0x40
def dSPIN_GOTO : Nat := 0x60
def dSPIN_GOTO_DIR : Nat := 0x68
def dSPIN_GO_UNTIL : Nat := 0x82
def dSPIN_RELEASE_SW : Nat := 0x92
def dSPIN_GO_HOME : Nat := 0x70
def dSPIN_GO_MARK : Nat := 0x78
def dSPIN_RESET_POS : Nat := 0xD8
def dSPIN_RESET_DEVICE : Nat := 0xC0
def dSPIN_SOFT_STOP : Nat := 0xB0
def dSPIN_HARD_STOP : Nat := 0xB8
def dSPIN_SOFT_HIZ : Nat := 0xA0
def dSPIN_HARD_HIZ : Nat := 0xA8
def dSPIN_GET_STATUS : Nat := 0xD0

def FWD : Nat := 0x01
def REV : Nat := 0x00

def ACTION_RESET : Nat := 0x00
def ACTION_COPY : Nat := 0x01

/-- The motion command bases whose opcode carries the direction in bit 0:
RUN, MOVE, GOTO_DIR, GO_UNTIL, RELEASE_SW. -/
def directionCommands : List Nat :=
  [dSPIN_RUN, dSPIN_MOVE, dSPIN_GOTO_DIR, dSPIN_GO_UNTIL, dSPIN_RELEASE_SW]

/-- The two direction options of the header. -/
def directions : List Nat := [FWD, REV]

/-- The two action options of the header. -/
def actions : List Nat := [ACTION_RESET, ACTION_COPY]

/-- The two command bases whose opcode carries an action: GO_UNTIL, RELEASE_SW. -/
def switchCommands : List Nat := [dSPIN_GO_UNTIL, dSPIN_RELEASE_SW]

/-! ## Register table, codec and controller

`dSPIN.h` declares `dSPIN_Param`, `dSPIN_SetParam`, `dSPIN_GetParam`,
`dSPIN_Run`, `dSPIN_Move`, `dSPIN_SoftStop` and the other commands; their
bodies live in `dSPIN_support.c` and `dSPIN_commands.c`, which are not among
the sources. The definitions of this section follow the written
specification of that layer (sections 3, 4.2, 4.4 and 6) and use the header
constants above for every opcode and address. -/

/-- Modelled from the spec: the registers of the register table of section 6
(the header gives their addresses but no widths; the width-aware body of
`dSPIN_Param` is missing). -/
inductive Register
  | ABS_POS | SPEED | ACC | DEC | MAX_SPEED | MIN_SPEED | FS_SPD
  | STEP_MODE | ALARM_EN | CONFIG | STATUS
  deriving DecidableEq, Repr

/-- Modelled from the spec: the address column of the register table (missing:
the lookup inside `dSPIN_SetParam`/`dSPIN_GetParam`); each entry is the header
constant of that name. -/
def Register.addr : Register → Nat
  | .ABS_POS => dSPIN_ABS_POS
  | .SPEED => dSPIN_SPEED
  | .ACC => dSPIN_ACC
  | .DEC => dSPIN_DEC
  | .MAX_SPEED => dSPIN_MAX_SPEED
  | .MIN_SPEED => dSPIN_MIN_SPEED
  | .FS_SPD => dSPIN_FS_SPD
  | .STEP_MODE => dSPIN_STEP_MODE
  | .ALARM_EN => dSPIN_ALARM_EN
  | .CONFIG => dSPIN_CONFIG
  | .STATUS => dSPIN_STATUS

/-- Modelled from the spec: the bit-width column of the register table of
section 6 (missing: the `bit_len` each register passes to `dSPIN_Param`).
MIN_SPEED is listed as 12-bit. -/
def Register.width : Register → Nat
  | .ABS_POS => 22
  | .SPEED => 20
  | .ACC => 12
  | .DEC => 12
  | .MAX_SPEED => 10
  | .MIN_SPEED => 12
  | .FS_SPD => 10
  | .STEP_MODE => 8
  | .ALARM_EN => 8
  | .CONFIG => 16
  | .STATUS => 16

/-- Modelled from the spec: `mask(width)`, the all-ones value of a register of
`width` bits (missing: the mask computed in `dSPIN_Param`). -/
def widthMask (width : Nat) : Nat := 2 ^ width - 1

/-- Modelled from the spec: byte count of a payload, section 4.2: 1 byte for at
most 8 bits, 2 bytes for 9 to 16 bits, 3 bytes above (missing: the byte
length computed in `dSPIN_Param`). -/
def payloadLen (width : Nat) : Nat :=
  if width ≤ 8 then 1 else if width ≤ 16 then 2 else 3

/-- Modelled from the spec: the low `n` bytes of `v`, most significant byte
first (missing: the per-byte `dSPIN_Xfer` calls of `dSPIN_Param`). -/
def msbFirst : Nat → Nat → List Nat
  | 0, _ => []
  | n + 1, v => ((v >>> (8 * n)) &&& 0xFF) :: msbFirst n v

/-- Modelled from the spec: the payload of a value for a field of `width`
bits: the value masked to the width, framed most significant byte first
(missing: `dSPIN_Param`). -/
def payload (width v : Nat) : List Nat :=
  msbFirst (payloadLen width) (v &&& widthMask width)

/-- Modelled from the spec: `encodeSetParam(register, value)`: the opcode byte
`SET_PARAM | reg` followed by the payload (missing: `dSPIN_SetParam`). -/
def encodeSetParam (reg : Register) (v : Nat) : List Nat :=
  (dSPIN_SET_PARAM ||| reg.addr) :: payload reg.width v

/-- Modelled from the spec: `encodeGetParam(register)`: the opcode byte
`GET_PARAM | reg` (missing: `dSPIN_GetParam`). -/
def encodeGetParam (reg : Register) : Nat := dSPIN_GET_PARAM ||| reg.addr

/-- Modelled from the spec: received bytes concatenated most significant byte
first into one unsigned integer (missing: the reassembly in `dSPIN_Param`). -/
def concatMsbFirst (raw : List Nat) : Nat :=
  raw.foldl (fun acc b => acc * 256 + b) 0

/-- Modelled from the spec: `decodeParamResponse(register, raw bytes)`: the
concatenated bytes truncated to the register's bit width (missing:
`dSPIN_GetParam`). -/
def decodeParamResponse (reg : Register) (raw : List Nat) : Nat :=
  concatMsbFirst raw &&& widthMask reg.width

/-- Modelled from the spec: the Direction enumeration of section 3. -/
inductive Direction
  | FORWARD | REVERSE
  deriving DecidableEq, Repr

/-- The header constant a direction stands for. -/
def Direction.bit : Direction → Nat
  | .FORWARD => FWD
  | .REVERSE => REV

/-- Modelled from the spec: the Action enumeration of section 3. -/
inductive Action
  | RESET_ABS_POS | COPY_TO_MARK
  deriving DecidableEq, Repr

/-- The header constant an action stands for. -/
def Action.bit : Action → Nat
  | .RESET_ABS_POS => ACTION_RESET
  | .COPY_TO_MARK => ACTION_COPY

/-- Modelled from the spec: the motion command kinds of section 4.4. -/
inductive MotionKind
  | RUN | MOVE | GOTO | GOTO_DIR | GO_UNTIL | RELEASE_SW | GO_HOME | GO_MARK
  deriving DecidableEq, Repr

/-- Modelled from the spec: the commands of section 3 with their arguments
(missing: the command functions of `dSPIN_commands.c`; the header declares
them with these arguments). -/
inductive Command
  | SET_PARAM (reg : Register) (value : Nat)
  | GET_PARAM (reg : Register)
  | RUN (dir : Direction) (spd : Nat)
  | MOVE (dir : Direction) (nStep : Nat)
  | GOTO (pos : Nat)
  | GOTO_DIR (dir : Direction) (pos : Nat)
  | GO_UNTIL (act : Action) (dir : Direction) (spd : Nat)
  | RELEASE_SW (act : Action) (dir : Direction)
  | GO_HOME | GO_MARK
  | RESET_POS | RESET_DEVICE
  | SOFT_STOP | HARD_STOP | SOFT_HIZ | HARD_HIZ
  | GET_STATUS
  deriving DecidableEq, Repr

/-- Modelled from the spec: the motion kind of a command, none for a command
outside the motion family. -/
def Command.motionKind : Command → Option MotionKind
  | .RUN _ _ => some .RUN
  | .MOVE _ _ => some .MOVE
  | .GOTO _ => some .GOTO
  | .GOTO_DIR _ _ => some .GOTO_DIR
  | .GO_UNTIL _ _ _ => some .GO_UNTIL
  | .RELEASE_SW _ _ => some .RELEASE_SW
  | .GO_HOME => some .GO_HOME
  | .GO_MARK => some .GO_MARK
  | _ => none

/-- Modelled from the spec: the bytes of one command, section 4.2 and the
opcode table of section 6: the opcode (base, direction in bit 0, action in bit
3) followed by the payload sized to the argument, 22 bits for a position or
distance and 20 bits for a speed (missing: `dSPIN_commands.c`). -/
def Command.encode : Command → List Nat
  | .SET_PARAM reg v => encodeSetParam reg v
  | .GET_PARAM reg => [encodeGetParam reg]
  | .RUN dir spd => (dSPIN_RUN ||| dir.bit) :: payload 20 spd
  | .MOVE dir n => (dSPIN_MOVE ||| dir.bit) :: payload 22 n
  | .GOTO pos => dSPIN_GOTO :: payload 22 pos
  | .GOTO_DIR dir pos => (dSPIN_GOTO_DIR ||| dir.bit) :: payload 22 pos
  | .GO_UNTIL act dir spd =>
      (dSPIN_GO_UNTIL ||| (act.bit <<< 3) ||| dir.bit) :: payload 20 spd
  | .RELEASE_SW act dir => [dSPIN_RELEASE_SW ||| (act.bit <<< 3) ||| dir.bit]
  | .GO_HOME => [dSPIN_GO_HOME]
  | .GO_MARK => [dSPIN_GO_MARK]
  | .RESET_POS => [dSPIN_RESET_POS]
  | .RESET_DEVICE => [dSPIN_RESET_DEVICE]
  | .SOFT_STOP => [dSPIN_SOFT_STOP]
  | .HARD_STOP => [dSPIN_HARD_STOP]
  | .SOFT_HIZ => [dSPIN_SOFT_HIZ]
  | .HARD_HIZ => [dSPIN_HARD_HIZ]
  | .GET_STATUS => [dSPIN_GET_STATUS]

/-- Modelled from the spec: the controller session state of section 4.4, the
last issued command family; a pending motion remembers its kind (missing: the
command layer of `dSPIN_commands.c`). -/
inductive ControllerState
  | Unknown | Idle | Configuring
  | MotionPending (kind : MotionKind)
  deriving DecidableEq, Repr

/-- Modelled from the spec: the state after a command, section 4.4: SET_PARAM
and GET_PARAM enter Configuring, a motion command leaves its kind pending, the
four stop commands enter Idle, RESET_DEVICE returns to Unknown, GET_STATUS
changes nothing. The spec names no transition for RESET_POS; it is left
without effect on the state. -/
def ControllerState.next (st : ControllerState) : Command → ControllerState
  | .SET_PARAM _ _ => .Configuring
  | .GET_PARAM _ => .Configuring
  | .RUN _ _ => .MotionPending .RUN
  | .MOVE _ _ => .MotionPending .MOVE
  | .GOTO _ => .MotionPending .GOTO
  | .GOTO_DIR _ _ => .MotionPending .GOTO_DIR
  | .GO_UNTIL _ _ _ => .MotionPending .GO_UNTIL
  | .RELEASE_SW _ _ => .MotionPending .RELEASE_SW
  | .GO_HOME => .MotionPending .GO_HOME
  | .GO_MARK => .MotionPending .GO_MARK
  | .RESET_POS => st
  | .RESET_DEVICE => .Unknown
  | .SOFT_STOP => .Idle
  | .HARD_STOP => .Idle
  | .SOFT_HIZ => .Idle
  | .HARD_HIZ => .Idle
  | .GET_STATUS => st

/-- Modelled from the spec: the errata rule of section 4.4: a motion command
issued while a motion of a different kind is pending is preceded by SOFT_STOP;
the same kind, or any other previous state, needs none. -/
def needsStop : ControllerState → Command → Bool
  | .MotionPending k, c =>
      match c.motionKind with
      | some k2 => decide (k ≠ k2)
      | none => false
  | _, _ => false

/-- Modelled from the spec: the bytes sent before a command's own bytes: the
one SOFT_STOP byte when the errata rule asks for it, nothing otherwise. -/
def interposed (st : ControllerState) (c : Command) : List Nat :=
  if needsStop st c then [dSPIN_SOFT_STOP] else []

/-- Modelled from the spec: issuing one command: the new state and the bytes
put on the wire, the interposed stop first (waiting on the busy line between
the stop and the command sends no byte and is not part of the trace). -/
def issue (st : ControllerState) (c : Command) : ControllerState × List Nat :=
  (st.next c, interposed st c ++ c.encode)

/-- Modelled from the spec: issuing a sequence of commands in order: the final
state and the whole byte trace. -/
def issueAll (st : ControllerState) : List Command → ControllerState × List Nat
  | [] => (st, [])
  | c :: cs =>
      let r := issueAll (issue st c).1 cs
      (r.1, (issue st c).2 ++ r.2)

def dSPIN_OCD_TH_375mA : Nat := 0x00
def dSPIN_OCD_TH_750mA : Nat := 0x01
def dSPIN_OCD_TH_1125mA : Nat := 0x02
def dSPIN_OCD_TH_1500mA : Nat := 0x03
def dSPIN_OCD_TH_1875mA : Nat := 0x04
def dSPIN_OCD_TH_2250mA : Nat := 0x05
def dSPIN_OCD_TH_2625mA : Nat := 0x06
def dSPIN_OCD_TH_3000mA : Nat := 0x07
def dSPIN_OCD_TH_3375mA : Nat := 0x08
def dSPIN_OCD_TH_3750mA : Nat := 0x09
def dSPIN_OCD_TH_4125mA : Nat := 0x0A
def dSPIN_OCD_TH_4500mA : Nat := 0x0B
def dSPIN_OCD_TH_4875mA : Nat := 0x0C
def dSPIN_OCD_TH_5250mA : Nat := 0x0D
def dSPIN_OCD_TH_5625mA : Nat := 0x0E
def dSPIN_OCD_TH_6000mA : Nat := 0x0F

def dSPIN_STEP_MODE_STEP_SEL : Nat := 0x07
def dSPIN_STEP_SEL_1 : Nat := 0x00
def dSPIN_STEP_SEL_1_2 : Nat := 0x01
def dSPIN_STEP_SEL_1_4 : Nat := 0x02
def dSPIN_STEP_SEL_1_8 : Nat := 0x03
def dSPIN_STEP_SEL_1_16 : Nat := 0x04
def dSPIN_STEP_SEL_1_32 : Nat := 0x05
def dSPIN_STEP_SEL_1_64 : Nat := 0x06
def dSPIN_STEP_SEL_1_128 : Nat := 0x07

def dSPIN_STEP_MODE_SYNC_EN : Nat := 0x80
def dSPIN_SYNC_EN : Nat := 0x80

def dSPIN_STEP_MODE_SYNC_SEL : Nat := 0x70
def dSPIN_SYNC_SEL_1_2 : Nat := 0x00
def dSPIN_SYNC_SEL_1 : Nat := 0x10
def dSPIN_SYNC_SEL_2 : Nat := 0x20
def dSPIN_SYNC_SEL_4 : Nat := 0x30
def dSPIN_SYNC_SEL_8 : Nat := 0x40
def dSPIN_SYNC_SEL_16 : Nat := 0x50
def dSPIN_SYNC_SEL_32 : Nat := 0x60
def dSPIN_SYNC_SEL_64 : Nat := 0x70

def dSPIN_CONFIG_OSC_SEL : Nat := 0x000F
def dSPIN_CONFIG_INT_16MHZ : Nat := 0x0000
def dSPIN_CONFIG_INT_16MHZ_OSCOUT_2MHZ : Nat := 0x0008
def dSPIN_CONFIG_INT_16MHZ_OSCOUT_4MHZ : Nat := 0x0009
def dSPIN_CONFIG_INT_16MHZ_OSCOUT_8MHZ : Nat := 0x000A
def dSPIN_CONFIG_INT_16MHZ_OSCOUT_16MHZ : Nat := 0x000B
def dSPIN_CONFIG_EXT_8MHZ_XTAL_DRIVE : Nat := 0x0004
def dSPIN_CONFIG_EXT_16MHZ_XTAL_DRIVE : Nat := 0x0005
def dSPIN_CONFIG_EXT_24MHZ_XTAL_DRIVE : Nat := 0x0006
def dSPIN_CONFIG_EXT_32MHZ_XTAL_DRIVE : Nat := 0x0007
def dSPIN_CONFIG_EXT_8MHZ_OSCOUT_INVERT : Nat := 0x000C
def dSPIN_CONFIG_EXT_16MHZ_OSCOUT_INVERT : Nat := 0x000D
def dSPIN_CONFIG_EXT_24MHZ_OSCOUT_INVERT : Nat := 0x000E
def dSPIN_CONFIG_EXT_32MHZ_OSCOUT_INVERT : Nat := 0x000F

def dSPIN_CONFIG_SW_MODE : Nat := 0x0010
def dSPIN_CONFIG_SW_HARD_STOP : Nat := 0x0000
def dSPIN_CONFIG_SW_USER : Nat := 0x0010

def dSPIN_CONFIG_EN_VSCOMP : Nat := 0x0020
def dSPIN_CONFIG_VS_COMP_DISABLE : Nat := 0x0000
def dSPIN_CONFIG_VS_COMP_ENABLE : Nat := 0x0020

def dSPIN_CONFIG_OC_SD : Nat := 0x0080
def dSPIN_CONFIG_OC_SD_DISABLE : Nat := 0x0000
def dSPIN_CONFIG_OC_SD_ENABLE : Nat := 0x0080

def dSPIN_CONFIG_POW_SR : Nat := 0x0300
def dSPIN_CONFIG_SR_180V_us : Nat := 0x0000
def dSPIN_CONFIG_SR_290V_us : Nat := 0x0200
def dSPIN_CONFIG_SR_530V_us : Nat := 0x0300

/-- Mask of the F_PWM_DEC field; its options are written `(0x0k)<<10` in the header. -/
def dSPIN_CONFIG_F_PWM_DEC : Nat := 0x1C00
def dSPIN_CONFIG_PWM_MUL_0_625 : Nat := 0x00 <<< 10
def dSPIN_CONFIG_PWM_MUL_0_75 : Nat := 0x01 <<< 10
def dSPIN_CONFIG_PWM_MUL_0_875 : Nat := 0x02 <<< 10
def dSPIN_CONFIG_PWM_MUL_1 : Nat := 0x03 <<< 10
def dSPIN_CONFIG_PWM_MUL_1_25 : Nat := 0x04 <<< 10
def dSPIN_CONFIG_PWM_MUL_1_5 : Nat := 0x05 <<< 10
def dSPIN_CONFIG_PWM_MUL_1_75 : Nat := 0x06 <<< 10
def dSPIN_CONFIG_PWM_MUL_2 : Nat := 0x07 <<< 10

/-- Mask of the F_PWM_INT field; its options are written `(0x0k)<<13` in the header. -/
def dSPIN_CONFIG_F_PWM_INT : Nat := 0xE000
def dSPIN_CONFIG_PWM_DIV_1 : Nat := 0x00 <<< 13
def dSPIN_CONFIG_PWM_DIV_2 : Nat := 0x01 <<< 13
def dSPIN_CONFIG_PWM_DIV_3 : Nat := 0x02 <<< 13
def dSPIN_CONFIG_PWM_DIV_4 : Nat := 0x03 <<< 13
def dSPIN_CONFIG_PWM_DIV_5 : Nat := 0x04 <<< 13
def dSPIN_CONFIG_PWM_DIV_6 : Nat := 0x05 <<< 13
def dSPIN_CONFIG_PWM_DIV_7 : Nat := 0x06 <<< 13

/-- The seven CONFIG field masks of the header, in header order. -/
def configFieldMasks : List Nat :=
  [dSPIN_CONFIG_OSC_SEL, dSPIN_CONFIG_SW_MODE, dSPIN_CONFIG_EN_VSCOMP,
   dSPIN_CONFIG_OC_SD, dSPIN_CONFIG_POW_SR, dSPIN_CONFIG_F_PWM_DEC,
   dSPIN_CONFIG_F_PWM_INT]

/-! ## Values the demo programs write -/

/-- C's logical negation `!x` on an integer: 1 for zero, 0 for anything else. -/
def cNot (x : Nat) : Nat := if x = 0 then 1 else 0

/-- The STEP_MODE argument of every demo (dSPIN_test.c line 34, dSPIN_main.c
line 45, dSPIN_run.c lines 83 and 159):
`!dSPIN_SYNC_EN | dSPIN_STEP_SEL_1 | dSPIN_SYNC_SEL_1`; unary `!` binds tighter
than `|`. -/
def stepModeValue : Nat := cNot dSPIN_SYNC_EN ||| dSPIN_STEP_SEL_1 ||| dSPIN_SYNC_SEL_1

/-- The power-up CONFIG value the demos compare `dSPIN_GetParam(dSPIN_CONFIG)`
with (dSPIN_test.c line 19, dSPIN_main.c line 27, dSPIN_run.c lines 68, 144). -/
def CONFIG_POWER_UP : Nat := 0x2E88

/-- The CONFIG argument of main in dSPIN_test.c (lines 66-69). -/
def testConfigValue : Nat :=
  dSPIN_CONFIG_PWM_DIV_1 ||| dSPIN_CONFIG_PWM_MUL_2 ||| dSPIN_CONFIG_SR_290V_us
    ||| dSPIN_CONFIG_OC_SD_DISABLE ||| dSPIN_CONFIG_VS_COMP_DISABLE
    ||| dSPIN_CONFIG_SW_HARD_STOP ||| dSPIN_CONFIG_INT_16MHZ

/-- The CONFIG argument of main in dSPIN_main.c (lines 91-94). -/
def mainConfigValue : Nat :=
  dSPIN_CONFIG_PWM_DIV_1 ||| dSPIN_CONFIG_PWM_MUL_2 ||| dSPIN_CONFIG_SR_290V_us
    ||| dSPIN_CONFIG_OC_SD_DISABLE ||| dSPIN_CONFIG_VS_COMP_DISABLE
    ||| dSPIN_CONFIG_SW_HARD_STOP ||| dSPIN_CONFIG_INT_16MHZ

/-- The CONFIG argument of move in dSPIN_run.c (lines 116-119). -/
def moveConfigValue : Nat :=
  dSPIN_CONFIG_PWM_DIV_1 ||| dSPIN_CONFIG_PWM_MUL_2 ||| dSPIN_CONFIG_SR_290V_us
    ||| dSPIN_CONFIG_OC_SD_ENABLE ||| dSPIN_CONFIG_VS_COMP_DISABLE
    ||| dSPIN_CONFIG_SW_USER ||| dSPIN_CONFIG_INT_16MHZ

/-- The CONFIG argument of run in dSPIN_run.c (lines 191-194). -/
def runConfigValue : Nat :=
  dSPIN_CONFIG_PWM_DIV_1 ||| dSPIN_CONFIG_PWM_MUL_2 ||| dSPIN_CONFIG_SR_290V_us
    ||| dSPIN_CONFIG_OC_SD_ENABLE ||| dSPIN_CONFIG_VS_COMP_DISABLE
    ||| dSPIN_CONFIG_SW_USER ||| dSPIN_CONFIG_INT_16MHZ

/-! ## The opcode bytes of the header's commands -/

/-- One way of forming an opcode byte from the header: a command, with the
register (its index in `registerAddresses`), the direction (FWD or REV) and
the action (ACTION_RESET or ACTION_COPY) it takes. NOP is left out. -/
inductive OpcodeForm
  | SET_PARAM (reg : Fin 25)
  | GET_PARAM (reg : Fin 25)
  | RUN (fwd : Bool)
  | STEP_CLOCK (fwd : Bool)
  | MOVE (fwd : Bool)
  | GOTO
  | GOTO_DIR (fwd : Bool)
  | GO_UNTIL (copy : Bool) (fwd : Bool)
  | RELEASE_SW (copy : Bool) (fwd : Bool)
  | GO_HOME | GO_MARK | RESET_POS | RESET_DEVICE
  | SOFT_STOP | HARD_STOP | SOFT_HIZ | HARD_HIZ | GET_STATUS
  deriving DecidableEq, Repr

/-- The direction constant: FWD for true, REV for false. -/
def dirOf (fwd : Bool) : Nat := if fwd then FWD else REV

/-- The action constant: ACTION_COPY for true, ACTION_RESET for false. -/
def actOf (copy : Bool) : Nat := if copy then ACTION_COPY else ACTION_RESET

/-- The register address with a given index in the header's list. -/
def regOf (reg : Fin 25) : Nat := registerAddresses.getD reg.val 0

/-- The opcode byte of a form: the command constant OR-ed with the register
address, with the action shifted left by 3, and with the direction. -/
def OpcodeForm.byte : OpcodeForm → Nat
  | .SET_PARAM r => dSPIN_SET_PARAM ||| regOf r
  | .GET_PARAM r => dSPIN_GET_PARAM ||| regOf r
  | .RUN d => dSPIN_RUN ||| dirOf d
  | .STEP_CLOCK d => dSPIN_STEP_CLOCK ||| dirOf d
  | .MOVE d => dSPIN_MOVE ||| dirOf d
  | .GOTO => dSPIN_GOTO
  | .GOTO_DIR d => dSPIN_GOTO_DIR ||| dirOf d
  | .GO_UNTIL a d => dSPIN_GO_UNTIL ||| (actOf a <<< 3) ||| dirOf d
  | .RELEASE_SW a d => dSPIN_RELEASE_SW ||| (actOf a <<< 3) ||| dirOf d
  | .GO_HOME => dSPIN_GO_HOME
  | .GO_MARK => dSPIN_GO_MARK
  | .RESET_POS => dSPIN_RESET_POS
  | .RESET_DEVICE => dSPIN_RESET_DEVICE
  | .SOFT_STOP => dSPIN_SOFT_STOP
  | .HARD_STOP => dSPIN_HARD_STOP
  | .SOFT_HIZ => dSPIN_SOFT_HIZ
  | .HARD_HIZ => dSPIN_HARD_HIZ
  | .GET_STATUS => dSPIN_GET_STATUS

/-- Every opcode form, listed command by command. -/
def allOpcodeForms : List OpcodeForm :=
  (List.finRange 25).map .SET_PARAM ++ (List.finRange 25).map .GET_PARAM
    ++ [.RUN false, .RUN true, .STEP_CLOCK false, .STEP_CLOCK true,
        .MOVE false, .MOVE true, .GOTO, .GOTO_DIR false, .GOTO_DIR true,
        .GO_UNTIL false false, .GO_UNTIL false true, .GO_UNTIL true false,
        .GO_UNTIL true true, .RELEASE_SW false false, .RELEASE_SW false true,
        .RELEASE_SW true false, .RELEASE_SW true true,
        .GO_HOME, .GO_MARK, .RESET_POS, .RESET_DEVICE,
        .SOFT_STOP, .HARD_STOP, .SOFT_HIZ, .HARD_HIZ, .GET_STATUS]

/-! ## Unit conversion (spec section 4.1)

`SpdCalc`, `AccCalc` and the other conversions are declared in `dSPIN.h`
(lines 307-345); their bodies are in `dSPIN_support.c`, which is not among the
sources. Physical values are exact rationals here; the rounding of the
floating-point product is not modelled. -/

/-- Modelled from the spec: saturating clamp of a rounded value to
`[0, maxVal]`, section 4.1 (missing: the range check of the conversion
functions of `dSPIN_support.c`). -/
def clampToReg (maxVal : Nat) (z : Int) : Nat := (min (max z 0) (maxVal : Int)).toNat

/-- Modelled from the spec: `accelToReg(stepsPerSecSq)`: multiply by 0.137438,
round, clamp to `[0, 0xFFF]` (missing: the body of `AccCalc`). -/
def accelToReg (stepsPerSecSq : ℚ) : Nat :=
  clampToReg 0xFFF (round (stepsPerSecSq * 0.137438))

/-- Modelled from the spec: `runSpeedToReg(stepsPerSec)`: multiply by 67.106,
round, clamp to `[0, 0xFFFFF]` (missing: the body of `SpdCalc`). -/
def runSpeedToReg (stepsPerSec : ℚ) : Nat :=
  clampToReg 0xFFFFF (round (stepsPerSec * 67.106))

/-! ## The demo programs

The three `main` functions call the library declared in `dSPIN.h`; what a run
of one of them does is the sequence of those calls, with the lines it prints
and the delays it takes. -/

/-- One observable action of a demo: a call of a library function of
`dSPIN.h` with its argument values as the callee receives them, a `printf`
with its format and integer arguments, or a wiringPi `delay`. -/
inductive Event
  | dSPIN_init
  | dSPIN_GetParam (param : Nat)
  | dSPIN_SetParam (param value : Nat)
  | dSPIN_GetStatus
  | dSPIN_Move (dir n_step : Nat)
  | dSPIN_Run (dir spd : Nat)
  | dSPIN_SoftStop
  | dSPIN_SoftHiZ
  | dSPIN_HardHiZ
  | printf (format : String) (args : List Int)
  | delay (howLong : Nat)
  deriving DecidableEq, Repr

/-- The conversion functions of `dSPIN_support.c` the demos call; their bodies
are not among the sources, so they are parameters. The argument is the integer
value the caller passes (C converts it to `float` at the call). -/
structure Support where
  MaxSpdCalc : Int → Nat
  FSCalc : Int → Nat
  SpdCalc : Int → Nat

/-- What the chip answers during a run: `BUSYN k` tells whether the `k`-th
`digitalRead(dSPIN_BUSYN)` of the run reads HIGH; `GetParam n p` and
`GetStatus n` are the values returned by `dSPIN_GetParam(p)` and
`dSPIN_GetStatus()` called after `n` earlier events. -/
structure Chip where
  BUSYN : Nat → Bool
  GetParam : Nat → Nat → Nat
  GetStatus : Nat → Int

/-- Why a run has not returned from `main`: it is still polling the busy line
when the reads allowed to one loop are used up, or it has passed the null
pointer `argv[argc]` to `strcmp` or `atoi`. -/
inductive Halt
  | polling | nullArgument
  deriving DecidableEq, Repr

/-- State of a run: the events so far, the number of `digitalRead` calls made,
and whether the run is halted. -/
structure Machine where
  trace : List Event
  reads : Nat
  halt : Option Halt
  deriving DecidableEq, Repr

/-- Start of `main`. -/
def Machine.start : Machine := ⟨[], 0, none⟩

/-- Record one event. -/
def Machine.emit (m : Machine) (e : Event) : Machine :=
  { m with trace := m.trace ++ [e] }

/-- The loop `while (digitalRead(dSPIN_BUSYN) == LOW);` started at read number
`k`: the read number after the first HIGH read, if one comes within `fuel`
reads. -/
def awaitHigh (pin : Nat → Bool) : Nat → Nat → Option Nat
  | 0, _ => none
  | fuel + 1, k => if pin k then some (k + 1) else awaitHigh pin fuel (k + 1)

/-- The statement `while (digitalRead(dSPIN_BUSYN) == LOW);` followed by the
rest of the program `rest`. -/
def waitBusy (chip : Chip) (fuel : Nat) (m : Machine) (rest : Machine → Machine) :
    Machine :=
  match awaitHigh chip.BUSYN fuel m.reads with
  | some k => rest { m with reads := k }
  | none => { m with halt := some .polling }

/-- Conversion of a C `int` argument to the `byte` parameter of a library call. -/
def toByte (z : Int) : Nat := (z % 256).toNat

/-- Width of `unsigned long` on the 32-bit Raspberry Pi target. -/
def ULONG_BITS : Nat := 32

/-- Conversion of a C `int` argument to an `unsigned long` parameter. -/
def toULong (z : Int) : Nat := (z % 2 ^ ULONG_BITS).toNat

def INT_MAX : Int := 2 ^ 31 - 1
def INT_MIN : Int := -2 ^ 31

/-- A C `int` result: the mathematical value wrapped to 32 bits two's complement. -/
def wrapInt (z : Int) : Int := (z + 2 ^ 31) % 2 ^ 32 - 2 ^ 31

/-- The library's `isspace` in the C locale: space, and the characters 9 to 13. -/
def isSpace (c : Char) : Bool := c.toNat = 32 || (9 ≤ c.toNat && c.toNat ≤ 13)

/-- Value of the leading decimal digits of a character list, continuing `acc`. -/
def digitsValue : List Char → Nat → Nat
  | [], acc => acc
  | c :: cs, acc =>
      if c.isDigit then digitsValue cs (acc * 10 + (c.toNat - 48)) else acc

/-- The C library's `atoi`: leading white space skipped, an optional sign, then
the leading decimal digits; 0 when there are none. A value outside `int`
(undefined in the C standard) is clamped as `strtol` clamps it on the target. -/
def atoi (s : String) : Int :=
  let cs := s.data.dropWhile isSpace
  let v : Int :=
    match cs with
    | '-' :: rest => -(digitsValue rest 0 : Int)
    | '+' :: rest => (digitsValue rest 0 : Int)
    | _ => (digitsValue cs 0 : Int)
  max INT_MIN (min INT_MAX v)

/-- The character `s[0]` of a C string: its first character, or the
terminating NUL of the empty string. -/
def firstChar (s : String) : Char := s.data.headD (Char.ofNat 0)

/-! ### dSPIN_test.c -/

/-- The value of `float testSpeed = 10;`, dSPIN_test.c line 7. -/
def testSpeed : Int := 10

/-- Function `main` of dSPIN_test.c (lines 9-110). -/
def dSPIN_test_main (sup : Support) (chip : Chip) (fuel : Nat) : Machine :=
  let m := Machine.start.emit .dSPIN_init
  let cfg := chip.GetParam m.trace.length dSPIN_CONFIG
  let m := m.emit (.dSPIN_GetParam dSPIN_CONFIG)
  let m := if cfg = 0x2E88 then m.emit (.printf "Configuration\tsuccessful!" []) else m
  let m := m.emit (.dSPIN_SetParam dSPIN_STEP_MODE stepModeValue)
  let m := m.emit (.dSPIN_SetParam dSPIN_MAX_SPEED (sup.MaxSpdCalc 400))
  let m := m.emit (.dSPIN_SetParam dSPIN_FS_SPD (sup.FSCalc 300))
  let m := m.emit (.dSPIN_SetParam dSPIN_ACC 0x7ff)
  let m := m.emit (.dSPIN_SetParam dSPIN_OCD_TH dSPIN_OCD_TH_3000mA)
  let m := m.emit (.dSPIN_SetParam dSPIN_CONFIG testConfigValue)
  let m := m.emit (.dSPIN_SetParam dSPIN_KVAL_RUN 0x9F)
  let st := chip.GetStatus m.trace.length
  let m := m.emit .dSPIN_GetStatus
  let m := m.emit (.printf "Status code is: %x\nSee datasheet sec.9.1.22 to decode.\n" [st])
  let m := m.emit (.dSPIN_Move FWD 200)
  waitBusy chip fuel m fun m =>
  let m := m.emit .dSPIN_SoftStop
  waitBusy chip fuel m fun m =>
  let m := m.emit (.delay 500)
  let m := m.emit (.dSPIN_Move REV 200)
  waitBusy chip fuel m fun m =>
  let m := m.emit .dSPIN_SoftStop
  waitBusy chip fuel m fun m =>
  let m := m.emit (.delay 500)
  let m := m.emit (.dSPIN_Run FWD (sup.SpdCalc testSpeed))
  let st := chip.GetStatus m.trace.length
  let m := m.emit .dSPIN_GetStatus
  let m := m.emit (.printf "Status is: %x\n" [st])
  waitBusy chip fuel m fun m =>
  let m := m.emit (.delay 50)
  let spd := chip.GetParam m.trace.length dSPIN_SPEED
  let m := m.emit (.dSPIN_GetParam dSPIN_SPEED)
  if spd = 0 then m.emit (.printf "The motor should have stopped.\n" []) else m

/-! ### dSPIN_run.c -/

/-- Macro `#define SOFT_STOP 0` of dSPIN_run.c. -/
def SOFT_STOP : Nat := 0
/-- Macro `#define HARD_STOP 1` of dSPIN_run.c. -/
def HARD_STOP : Nat := 1

/-- Function `stop` of dSPIN_run.c (lines 58-61). -/
def stop (hard : Nat) (m : Machine) : Machine :=
  if hard ≠ 0 then m.emit .dSPIN_HardHiZ else m.emit .dSPIN_SoftHiZ

/-- Function `move` of dSPIN_run.c (lines 63-137). -/
def move (sup : Support) (chip : Chip) (fuel : Nat) (dist dir speed : Int)
    (m : Machine) : Machine :=
  let cfg := chip.GetParam m.trace.length dSPIN_CONFIG
  let m := m.emit (.dSPIN_GetParam dSPIN_CONFIG)
  let m := if cfg = 0x2E88 then m.emit (.printf "Configuration\tsuccessful!" []) else m
  let m := m.emit (.dSPIN_SetParam dSPIN_STEP_MODE stepModeValue)
  let m := m.emit (.dSPIN_SetParam dSPIN_MAX_SPEED (sup.MaxSpdCalc speed))
  let m := m.emit (.dSPIN_SetParam dSPIN_FS_SPD 0x3FF)
  let m := m.emit (.dSPIN_SetParam dSPIN_ACC 0x040)
  let m := m.emit (.dSPIN_SetParam dSPIN_OCD_TH dSPIN_OCD_TH_1875mA)
  let m := m.emit (.dSPIN_SetParam dSPIN_CONFIG moveConfigValue)
  let m := m.emit (.dSPIN_SetParam dSPIN_KVAL_RUN 0xaF)
  let st := chip.GetStatus m.trace.length
  let m := m.emit .dSPIN_GetStatus
  let m := m.emit (.printf
    "Status code is: %x\nIt shouldn't be 0, but this is normal at the moment.\n" [st])
  waitBusy chip fuel m fun m =>
  let m := m.emit (.delay 500)
  m.emit (.dSPIN_Move (toByte dir) (toULong dist))

/-- Function `run` of dSPIN_run.c (lines 139-213). -/
def run (sup : Support) (chip : Chip) (fuel : Nat) (speed dir : Int)
    (m : Machine) : Machine :=
  let cfg := chip.GetParam m.trace.length dSPIN_CONFIG
  let m := m.emit (.dSPIN_GetParam dSPIN_CONFIG)
  let m := if cfg = 0x2E88 then m.emit (.printf "Configuration\tsuccessful!" []) else m
  let m := m.emit (.dSPIN_SetParam dSPIN_STEP_MODE stepModeValue)
  let m := m.emit (.dSPIN_SetParam dSPIN_MAX_SPEED (sup.MaxSpdCalc 290))
  let m := m.emit (.dSPIN_SetParam dSPIN_FS_SPD (sup.FSCalc 150))
  let m := m.emit (.dSPIN_SetParam dSPIN_ACC 0x040)
  let m := m.emit (.dSPIN_SetParam dSPIN_OCD_TH dSPIN_OCD_TH_1875mA)
  let m := m.emit (.dSPIN_SetParam dSPIN_CONFIG runConfigValue)
  let m := m.emit (.dSPIN_SetParam dSPIN_KVAL_RUN 0xaF)
  let st := chip.GetStatus m.trace.length
  let m := m.emit .dSPIN_GetStatus
  let m := m.emit (.printf
    "Status code is: %x\nIt shouldn't be 0, but this is normal at the moment.\n" [st])
  waitBusy chip fuel m fun m =>
  let m := m.emit (.delay 500)
  m.emit (.dSPIN_Run (toByte dir) (sup.SpdCalc speed))

/-- Function `main` of dSPIN_run.c (lines 19-55); `argv` holds the program name
and the arguments, `argc` is its length and `argv[argc]` is the null pointer.
The globals `runSpeed` and `dir` start as 200 and FWD. -/
def dSPIN_run_main (sup : Support) (chip : Chip) (fuel : Nat) (argv : List String) :
    Machine :=
  let m := Machine.start.emit .dSPIN_init
  match argv with
  | _ :: arg1 :: more =>
      if firstChar arg1 = '0' then
        let m := m.emit (.printf "stopping motor\n" [])
        match more with
        | arg2 :: _ =>
            if arg2 = "soft" then (stop SOFT_STOP m).emit (.printf "softly\n" [])
            else stop HARD_STOP m
        | [] => { m with halt := some .nullArgument }
      else if arg1 = "for" then
        let dist := atoi arg1
        let dir : Int := if dist < 0 then (REV : Int) else (FWD : Int)
        let dist := if dist < 0 then wrapInt (0 - dist) else dist
        let m := m.emit (.printf "moving %i steps.\n" [dist])
        match more with
        | arg2 :: _ => move sup chip fuel (atoi arg2) dir 20 m
        | [] => { m with halt := some .nullArgument }
      else
        let runSpeed := atoi arg1
        let dir : Int := if runSpeed < 0 then (REV : Int) else (FWD : Int)
        let runSpeed := if runSpeed < 0 then wrapInt (0 - runSpeed) else runSpeed
        let m := m.emit (.printf "starting motor with speed %i.\n" [runSpeed])
        run sup chip fuel runSpeed dir m
  | _ => m

/-! ### Reading a trace -/

/-- A motion command among the library calls the demos make: Move or Run. -/
def Event.isMotion : Event → Bool
  | .dSPIN_Move _ _ => true
  | .dSPIN_Run _ _ => true
  | _ => false

/-- The SoftStop call. -/
def Event.isSoftStop : Event → Bool
  | .dSPIN_SoftStop => true
  | _ => false

/-- A register write. -/
def Event.isSetParam : Event → Bool
  | .dSPIN_SetParam _ _ => true
  | _ => false

/-- A library call, as opposed to a printed line or a delay. -/
def Event.isCall : Event → Bool
  | .printf _ _ => false
  | .delay _ => false
  | _ => true

/-- The library calls of a trace, in order. -/
def calls (t : List Event) : List Event := t.filter Event.isCall

/-- The motion commands of a trace, in order. -/
def motions (t : List Event) : List Event := t.filter Event.isMotion

/-- Whether every motion command of a trace that follows another motion
command has a SoftStop between the two; `pending` tells whether a motion
command has been seen with no SoftStop after it. -/
def stopsBetweenMotions : Bool → List Event → Bool
  | _, [] => true
  | pending, e :: es =>
      if e.isMotion then !pending && stopsBetweenMotions true es
      else if e.isSoftStop then stopsBetweenMotions false es
      else stopsBetweenMotions pending es

/-- Whether a trace issues its motion commands only after its register writes
and after a GetStatus: the events from the first motion command on hold no
register write, and a trace with a motion command has a GetStatus before it. -/
def configBeforeMotion (t : List Event) : Bool :=
  ((t.dropWhile fun e => !e.isMotion).all fun e => !e.isSetParam) &&
  (!(t.any Event.isMotion) ||
    (t.takeWhile fun e => !e.isMotion).contains .dSPIN_GetStatus)

/-- The registers written before the first motion command of a trace, in the
order of the writes. -/
def writesBeforeMotion (t : List Event) : List Nat :=
  (t.takeWhile fun e => !e.isMotion).filterMap fun e =>
    match e with
    | .dSPIN_SetParam param _ => some param
    | _ => none

/-- The values a trace writes to the register `param`, in the order of the
writes. -/
def writesTo (param : Nat) (t : List Event) : List Nat :=
  t.filterMap fun e =>
    match e with
    | .dSPIN_SetParam p value => if p = param then some value else none
    | _ => none

/-- The library calls of main in dSPIN_test.c in program order. -/
def testCalls (sup : Support) : List Event :=
  [.dSPIN_init, .dSPIN_GetParam dSPIN_CONFIG,
   .dSPIN_SetParam dSPIN_STEP_MODE 0x10,
   .dSPIN_SetParam dSPIN_MAX_SPEED (sup.MaxSpdCalc 400),
   .dSPIN_SetParam dSPIN_FS_SPD (sup.FSCalc 300),
   .dSPIN_SetParam dSPIN_ACC 0x7ff,
   .dSPIN_SetParam dSPIN_OCD_TH 0x07,
   .dSPIN_SetParam dSPIN_CONFIG 0x1E00,
   .dSPIN_SetParam dSPIN_KVAL_RUN 0x9F,
   .dSPIN_GetStatus,
   .dSPIN_Move FWD 200, .dSPIN_SoftStop,
   .dSPIN_Move REV 200, .dSPIN_SoftStop,
   .dSPIN_Run FWD (sup.SpdCalc 10),
   .dSPIN_GetStatus, .dSPIN_GetParam dSPIN_SPEED]

/-! ## CONFIG fields and their options (dSPIN.h lines 138-201) -/

/-- The oscillator options, field OSC_SEL. -/
def oscOptions : List Nat :=
  [dSPIN_CONFIG_INT_16MHZ, dSPIN_CONFIG_INT_16MHZ_OSCOUT_2MHZ,
   dSPIN_CONFIG_INT_16MHZ_OSCOUT_4MHZ, dSPIN_CONFIG_INT_16MHZ_OSCOUT_8MHZ,
   dSPIN_CONFIG_INT_16MHZ_OSCOUT_16MHZ, dSPIN_CONFIG_EXT_8MHZ_XTAL_DRIVE,
   dSPIN_CONFIG_EXT_16MHZ_XTAL_DRIVE, dSPIN_CONFIG_EXT_24MHZ_XTAL_DRIVE,
   dSPIN_CONFIG_EXT_32MHZ_XTAL_DRIVE, dSPIN_CONFIG_EXT_8MHZ_OSCOUT_INVERT,
   dSPIN_CONFIG_EXT_16MHZ_OSCOUT_INVERT, dSPIN_CONFIG_EXT_24MHZ_OSCOUT_INVERT,
   dSPIN_CONFIG_EXT_32MHZ_OSCOUT_INVERT]

/-- The switch input options, field SW_MODE. -/
def swModeOptions : List Nat := [dSPIN_CONFIG_SW_HARD_STOP, dSPIN_CONFIG_SW_USER]

/-- The voltage compensation options, field EN_VSCOMP. -/
def vsCompOptions : List Nat := [dSPIN_CONFIG_VS_COMP_DISABLE, dSPIN_CONFIG_VS_COMP_ENABLE]

/-- The overcurrent shutdown options, field OC_SD. -/
def ocSdOptions : List Nat := [dSPIN_CONFIG_OC_SD_DISABLE, dSPIN_CONFIG_OC_SD_ENABLE]

/-- The slew rate options, field POW_SR. -/
def slewRateOptions : List Nat :=
  [dSPIN_CONFIG_SR_180V_us, dSPIN_CONFIG_SR_290V_us, dSPIN_CONFIG_SR_530V_us]

/-- The PWM multiplier options, field F_PWM_DEC. -/
def pwmMulOptions : List Nat :=
  [dSPIN_CONFIG_PWM_MUL_0_625, dSPIN_CONFIG_PWM_MUL_0_75, dSPIN_CONFIG_PWM_MUL_0_875,
   dSPIN_CONFIG_PWM_MUL_1, dSPIN_CONFIG_PWM_MUL_1_25, dSPIN_CONFIG_PWM_MUL_1_5,
   dSPIN_CONFIG_PWM_MUL_1_75, dSPIN_CONFIG_PWM_MUL_2]

/-- The PWM divisor options, field F_PWM_INT. -/
def pwmDivOptions : List Nat :=
  [dSPIN_CONFIG_PWM_DIV_1, dSPIN_CONFIG_PWM_DIV_2, dSPIN_CONFIG_PWM_DIV_3,
   dSPIN_CONFIG_PWM_DIV_4, dSPIN_CONFIG_PWM_DIV_5, dSPIN_CONFIG_PWM_DIV_6,
   dSPIN_CONFIG_PWM_DIV_7]

/-- The seven CONFIG fields of the header, each the field mask with the option
constants defined under it, in header order. -/
def configFields : List (Nat × List Nat) :=
  [(dSPIN_CONFIG_OSC_SEL, oscOptions), (dSPIN_CONFIG_SW_MODE, swModeOptions),
   (dSPIN_CONFIG_EN_VSCOMP, vsCompOptions), (dSPIN_CONFIG_OC_SD, ocSdOptions),
   (dSPIN_CONFIG_POW_SR, slewRateOptions), (dSPIN_CONFIG_F_PWM_DEC, pwmMulOptions),
   (dSPIN_CONFIG_F_PWM_INT, pwmDivOptions)]

/-! ### dSPIN_main.c -/

/-- Function `main` of dSPIN_main.c (lines 6-156); `initStatus` is the value
`dSPIN_init()` returns. The function returns on line 120, right after the
first Move: the statements of lines 123-127, `dSPIN_Move(FWD, 1200)` among
them, are never reached. -/
def dSPIN_main_main (sup : Support) (chip : Chip) (initStatus : Int) : Machine :=
  let m := Machine.start.emit (.printf "hello world\n" [])
  let err := initStatus
  let m := m.emit .dSPIN_init
  let m := m.emit (.printf "init exited with status %x\n" [err])
  let err := wrapInt (chip.GetParam m.trace.length dSPIN_CONFIG)
  let m := m.emit (.dSPIN_GetParam dSPIN_CONFIG)
  let m :=
    if err = 0x2E88 then m.emit (.printf "dSPIN setup successful\n" [])
    else m.emit (.printf "dSPIN config returned %x.\n" [err])
  let m := m.emit (.dSPIN_SetParam dSPIN_STEP_MODE stepModeValue)
  let m := m.emit (.dSPIN_SetParam dSPIN_MAX_SPEED (sup.MaxSpdCalc 400))
  let m := m.emit (.dSPIN_SetParam dSPIN_FS_SPD (sup.FSCalc 300))
  let m := m.emit (.dSPIN_SetParam dSPIN_ACC 0x7ff)
  let m := m.emit (.dSPIN_SetParam dSPIN_OCD_TH dSPIN_OCD_TH_3000mA)
  let m := m.emit (.dSPIN_SetParam dSPIN_CONFIG mainConfigValue)
  let m := m.emit (.dSPIN_SetParam dSPIN_KVAL_RUN 0x9F)
  let m := m.emit .dSPIN_GetStatus
  m.emit (.dSPIN_Move FWD 446200)

/-- The distance of the call `dSPIN_Move(FWD, 1200)` on line 123 of
dSPIN_main.c, which follows the `return 0;` of line 120. -/
def mainUnreachedMoveDistance : Nat := 1200

/-! ### Literal arguments of the demos -/

/-- The calls of main in dSPIN_test.c whose value argument is a literal or a
constant expression (lines 34, 53, 57, 66, 76, 86, 95). -/
def testLiteralCalls : List Event :=
  [.dSPIN_SetParam dSPIN_STEP_MODE stepModeValue,
   .dSPIN_SetParam dSPIN_ACC 0x7ff,
   .dSPIN_SetParam dSPIN_OCD_TH dSPIN_OCD_TH_3000mA,
   .dSPIN_SetParam dSPIN_CONFIG testConfigValue,
   .dSPIN_SetParam dSPIN_KVAL_RUN 0x9F,
   .dSPIN_Move FWD 200, .dSPIN_Move REV 200]

/-- The calls of main in dSPIN_main.c whose value argument is a literal or a
constant expression (lines 45, 71, 78, 91, 105, 119, and 123 after the return). -/
def mainLiteralCalls : List Event :=
  [.dSPIN_SetParam dSPIN_STEP_MODE stepModeValue,
   .dSPIN_SetParam dSPIN_ACC 0x7ff,
   .dSPIN_SetParam dSPIN_OCD_TH dSPIN_OCD_TH_3000mA,
   .dSPIN_SetParam dSPIN_CONFIG mainConfigValue,
   .dSPIN_SetParam dSPIN_KVAL_RUN 0x9F,
   .dSPIN_Move FWD 446200, .dSPIN_Move FWD mainUnreachedMoveDistance]

/-- The calls of move in dSPIN_run.c whose value argument is a literal or a
constant expression (lines 83, 96, 103, 107, 116, 126). -/
def moveLiteralCalls : List Event :=
  [.dSPIN_SetParam dSPIN_STEP_MODE stepModeValue,
   .dSPIN_SetParam dSPIN_FS_SPD 0x3FF,
   .dSPIN_SetParam dSPIN_ACC 0x040,
   .dSPIN_SetParam dSPIN_OCD_TH dSPIN_OCD_TH_1875mA,
   .dSPIN_SetParam dSPIN_CONFIG moveConfigValue,
   .dSPIN_SetParam dSPIN_KVAL_RUN 0xaF]

/-- The calls of run in dSPIN_run.c whose value argument is a literal or a
constant expression (lines 159, 178, 182, 191, 201). -/
def runLiteralCalls : List Event :=
  [.dSPIN_SetParam dSPIN_STEP_MODE stepModeValue,
   .dSPIN_SetParam dSPIN_ACC 0x040,
   .dSPIN_SetParam dSPIN_OCD_TH dSPIN_OCD_TH_1875mA,
   .dSPIN_SetParam dSPIN_CONFIG runConfigValue,
   .dSPIN_SetParam dSPIN_KVAL_RUN 0xaF]

/-- Modelled from the spec: the bit width of the target of a value argument
(missing: the `bit_len` the library passes to `dSPIN_Param` for each register
and command). ACC 12, FS_SPD and MAX_SPEED 10, STEP_MODE 8, CONFIG 16 as in the
register table of section 6 and the comments of dSPIN.h lines 307-333; a Move
distance 22 and a Run speed 20 bits as in section 4.2; OCD_TH 4 bits, the range
0x00-0x0F of the threshold constants of dSPIN.h lines 76-91; KVAL_RUN 8 bits,
0xFF being its full value in the comment above the write. -/
def targetWidth : Event → Option Nat
  | .dSPIN_SetParam param _ =>
      if param = dSPIN_ACC then some 12
      else if param = dSPIN_FS_SPD then some 10
      else if param = dSPIN_MAX_SPEED then some 10
      else if param = dSPIN_STEP_MODE then some 8
      else if param = dSPIN_CONFIG then some 16
      else if param = dSPIN_OCD_TH then some 4
      else if param = dSPIN_KVAL_RUN then some 8
      else none
  | .dSPIN_Move _ _ => some 22
  | .dSPIN_Run _ _ => some 20
  | _ => none

/-- The value argument of a register write or a motion command. -/
def Event.value : Event → Nat
  | .dSPIN_SetParam _ value => value
  | .dSPIN_Move _ n_step => n_step
  | .dSPIN_Run _ spd => spd
  | _ => 0

/-- Whether the value argument of a call fits the bit width of its target, so
that masking it to that width leaves it unchanged. -/
def Event.fits (e : Event) : Bool :=
  match targetWidth e with
  | some w => decide (e.value < 2 ^ w) && decide (e.value &&& (2 ^ w - 1) = e.value)
  | none => false

/-! ## Properties of the constant tables -/

/-- C1: the command opcode constants of dSPIN.h equal the opcode table:
SET_PARAM=0x00, GET_PARAM=0x20, RUN=0x50, MOVE=0x40, GOTO=0x60, GOTO_DIR=0x68,
GO_UNTIL=0x82, RELEASE_SW=0x92, GO_HOME=0x70, GO_MARK=0x78, RESET_POS=0xD8,
RESET_DEVICE=0xC0, SOFT_STOP=0xB0, HARD_STOP=0xB8, SOFT_HIZ=0xA0, HARD_HIZ=0xA8,
GET_STATUS=0xD0. -/
theorem C1_opcode_table :
    dSPIN_SET_PARAM = 0x00 ∧ dSPIN_GET_PARAM = 0x20 ∧ dSPIN_RUN = 0x50 ∧
    dSPIN_MOVE = 0x40 ∧ dSPIN_GOTO = 0x60 ∧ dSPIN_GOTO_DIR = 0x68 ∧
    dSPIN_GO_UNTIL = 0x82 ∧ dSPIN_RELEASE_SW = 0x92 ∧ dSPIN_GO_HOME = 0x70 ∧
    dSPIN_GO_MARK = 0x78 ∧ dSPIN_RESET_POS = 0xD8 ∧ dSPIN_RESET_DEVICE = 0xC0 ∧
    dSPIN_SOFT_STOP = 0xB0 ∧ dSPIN_HARD_STOP = 0xB8 ∧ dSPIN_SOFT_HIZ = 0xA0 ∧
    dSPIN_HARD_HIZ = 0xA8 ∧ dSPIN_GET_STATUS = 0xD0 := by
  decide

/-- C2: for every direction-taking base B among RUN, MOVE, GOTO_DIR, GO_UNTIL,
RELEASE_SW and every direction d among FWD, REV, bit 0 of `B | d` is d (with
FWD = 1 and REV = 0) and every other bit of `B | d` is the bit of B; in
particular `RUN | FWD = 0x51`, `RUN | REV = 0x50` and `MOVE | FWD = 0x41`. -/
theorem C2_direction_bit (B d : Nat) (hB : B ∈ directionCommands)
    (hd : d ∈ directions) :
    (B ||| d).testBit 0 = decide (d = 1) ∧
    (B ||| d) &&& 1 = d ∧
    (∀ i, 0 < i → (B ||| d).testBit i = B.testBit i) ∧
    (B ||| d) >>> 1 = B >>> 1 ∧
    FWD = 1 ∧ REV = 0 ∧
    dSPIN_RUN ||| FWD = 0x51 ∧ dSPIN_RUN ||| REV = 0x50 ∧ dSPIN_MOVE ||| FWD = 0x41 := by
  have key : ∀ B ∈ directionCommands, ∀ d ∈ directions,
      (B ||| d).testBit 0 = decide (d = 1) ∧ (B ||| d) &&& 1 = d ∧
      (B ||| d) >>> 1 = B >>> 1 := by decide
  obtain ⟨h0, h1, h2⟩ := key B hB d hd
  refine ⟨h0, h1, ?_, h2, rfl, rfl, rfl, rfl, rfl⟩
  intro i hi
  obtain ⟨j, rfl⟩ : ∃ j, i = j + 1 := ⟨i - 1, by omega⟩
  have hs := congrArg (fun n => Nat.testBit n j) h2
  simpa [Nat.testBit_shiftRight, Nat.add_comm] using hs

/-- C2 at RUN and FWD: the opcode is 0x51, bit 0 set, upper bits those of 0x50. -/
theorem C2_direction_bit_witness :
    dSPIN_RUN ∈ directionCommands ∧ FWD ∈ directions ∧
    (dSPIN_RUN ||| FWD) &&& 1 = FWD ∧ (dSPIN_RUN ||| FWD) >>> 1 = dSPIN_RUN >>> 1 :=
  ⟨by decide, by decide,
   (C2_direction_bit dSPIN_RUN FWD (by decide) (by decide)).2.1,
   (C2_direction_bit dSPIN_RUN FWD (by decide) (by decide)).2.2.2.1⟩

/-- C3: for GO_UNTIL (0x82) and RELEASE_SW (0x92), every action a among
ACTION_RESET = 0, ACTION_COPY = 1 and every direction d among REV = 0, FWD = 1,
the opcode `base | a<<3 | d` decodes back: bit 3 is a, bit 0 is d, clearing
bits 3 and 0 of the byte gives the base; and the four opcodes of one command
are pairwise distinct (equal opcodes have equal action and direction). -/
theorem C3_action_direction_decode (B a d : Nat) (hB : B ∈ switchCommands)
    (ha : a ∈ actions) (hd : d ∈ directions) :
    ((B ||| (a <<< 3) ||| d) >>> 3) &&& 1 = a ∧
    (B ||| (a <<< 3) ||| d).testBit 3 = decide (a = 1) ∧
    (B ||| (a <<< 3) ||| d) &&& 1 = d ∧
    (B ||| (a <<< 3) ||| d).testBit 0 = decide (d = 1) ∧
    (B ||| (a <<< 3) ||| d) < 256 ∧
    (B ||| (a <<< 3) ||| d) &&& (0xFF ^^^ (1 <<< 3 ||| 1)) = B ∧
    (∀ a2 ∈ actions, ∀ d2 ∈ directions,
      (B ||| (a <<< 3) ||| d) = (B ||| (a2 <<< 3) ||| d2) → a = a2 ∧ d = d2) ∧
    ((actions.flatMap fun x => directions.map fun y => B ||| (x <<< 3) ||| y).Nodup) ∧
    ACTION_RESET = 0 ∧ ACTION_COPY = 1 ∧ REV = 0 ∧ FWD = 1 ∧
    dSPIN_GO_UNTIL = 0x82 ∧ dSPIN_RELEASE_SW = 0x92 := by
  have key : ∀ B ∈ switchCommands, ∀ a ∈ actions, ∀ d ∈ directions,
      ((B ||| (a <<< 3) ||| d) >>> 3) &&& 1 = a ∧
      (B ||| (a <<< 3) ||| d).testBit 3 = decide (a = 1) ∧
      (B ||| (a <<< 3) ||| d) &&& 1 = d ∧
      (B ||| (a <<< 3) ||| d).testBit 0 = decide (d = 1) ∧
      (B ||| (a <<< 3) ||| d) < 256 ∧
      (B ||| (a <<< 3) ||| d) &&& (0xFF ^^^ (1 <<< 3 ||| 1)) = B ∧
      (∀ a2 ∈ actions, ∀ d2 ∈ directions,
        (B ||| (a <<< 3) ||| d) = (B ||| (a2 <<< 3) ||| d2) → a = a2 ∧ d = d2) ∧
      ((actions.flatMap fun x => directions.map fun y => B ||| (x <<< 3) ||| y).Nodup) := by
    decide
  obtain ⟨h1, h2, h3, h4, h5, h6, h7, h8⟩ := key B hB a ha d hd
  exact ⟨h1, h2, h3, h4, h5, h6, h7, h8, rfl, rfl, rfl, rfl, rfl, rfl⟩

/-- C3 at GO_UNTIL, ACTION_COPY, FWD: the opcode is 0x8B and decodes back. -/
theorem C3_action_direction_decode_witness :
    dSPIN_GO_UNTIL ∈ switchCommands ∧ ACTION_COPY ∈ actions ∧ FWD ∈ directions ∧
    ((dSPIN_GO_UNTIL ||| (ACTION_COPY <<< 3) ||| FWD) >>> 3) &&& 1 = ACTION_COPY ∧
    (dSPIN_GO_UNTIL ||| (ACTION_COPY <<< 3) ||| FWD) &&& 1 = FWD ∧
    dSPIN_GO_UNTIL ||| (ACTION_COPY <<< 3) ||| FWD = 0x8B :=
  ⟨by decide, by decide, by decide,
   (C3_action_direction_decode dSPIN_GO_UNTIL ACTION_COPY FWD
      (by decide) (by decide) (by decide)).1,
   (C3_action_direction_decode dSPIN_GO_UNTIL ACTION_COPY FWD
      (by decide) (by decide) (by decide)).2.2.1,
   by decide⟩

/-- C4: the register address constants equal the register table (ABS_POS=0x01,
SPEED=0x04, ACC=0x05, DEC=0x06, MAX_SPEED=0x07, MIN_SPEED=0x08, FS_SPD=0x15,
STEP_MODE=0x16, ALARM_EN=0x17, CONFIG=0x18, STATUS=0x19), and the 25 register
addresses defined in dSPIN.h are pairwise distinct and each below 32 (5 bits). -/
theorem C4_register_addresses :
    dSPIN_ABS_POS = 0x01 ∧ dSPIN_SPEED = 0x04 ∧ dSPIN_ACC = 0x05 ∧
    dSPIN_DEC = 0x06 ∧ dSPIN_MAX_SPEED = 0x07 ∧ dSPIN_MIN_SPEED = 0x08 ∧
    dSPIN_FS_SPD = 0x15 ∧ dSPIN_STEP_MODE = 0x16 ∧ dSPIN_ALARM_EN = 0x17 ∧
    dSPIN_CONFIG = 0x18 ∧ dSPIN_STATUS = 0x19 ∧
    registerAddresses.length = 25 ∧
    registerAddresses.Nodup ∧
    (∀ r ∈ registerAddresses, r < 2 ^ 5) := by
  decide

/-- C5: for every register address r defined in dSPIN.h, the SET_PARAM opcode
`0x00 | r` equals r, the GET_PARAM opcode `0x20 | r` equals 0x20 + r, and r is
recovered from either opcode by masking with 0x1F; the scenario opcodes are
0x16 for SET_PARAM(STEP_MODE), 0x07 for SET_PARAM(MAX_SPEED) and 0x41 for MOVE
forward. -/
theorem C5_param_opcodes (r : Nat) (hr : r ∈ registerAddresses) :
    dSPIN_SET_PARAM ||| r = r ∧
    dSPIN_GET_PARAM ||| r = 0x20 + r ∧
    (dSPIN_SET_PARAM ||| r) &&& 0x1F = r ∧
    (dSPIN_GET_PARAM ||| r) &&& 0x1F = r ∧
    dSPIN_SET_PARAM ||| dSPIN_STEP_MODE = 0x16 ∧
    dSPIN_SET_PARAM ||| dSPIN_MAX_SPEED = 0x07 ∧
    dSPIN_MOVE ||| FWD = 0x41 := by
  have key : ∀ r ∈ registerAddresses,
      dSPIN_SET_PARAM ||| r = r ∧ dSPIN_GET_PARAM ||| r = 0x20 + r ∧
      (dSPIN_SET_PARAM ||| r) &&& 0x1F = r ∧ (dSPIN_GET_PARAM ||| r) &&& 0x1F = r := by
    decide
  obtain ⟨h1, h2, h3, h4⟩ := key r hr
  exact ⟨h1, h2, h3, h4, rfl, rfl, rfl⟩

/-- C5 at the STATUS register: SET_PARAM gives 0x19, GET_PARAM gives 0x39. -/
theorem C5_param_opcodes_witness :
    dSPIN_STATUS ∈ registerAddresses ∧
    dSPIN_SET_PARAM ||| dSPIN_STATUS = dSPIN_STATUS ∧
    dSPIN_GET_PARAM ||| dSPIN_STATUS = 0x20 + dSPIN_STATUS ∧
    (dSPIN_GET_PARAM ||| dSPIN_STATUS) &&& 0x1F = dSPIN_STATUS :=
  ⟨by decide,
   (C5_param_opcodes dSPIN_STATUS (by decide)).1,
   (C5_param_opcodes dSPIN_STATUS (by decide)).2.1,
   (C5_param_opcodes dSPIN_STATUS (by decide)).2.2.2.1⟩

/-- C6 (the header at the status word 0x0020, motor accelerating in the chip
layout): the motor status field `w & dSPIN_STATUS_MOT_STATUS` is 0x0020, which
is none of the four motor status constants; the constants are 0x0000, 0x2000,
0x4000 and 0x6000, so the three non-zero ones have no bit inside the field mask
0x0060, and ACCELERATION and DECELERATION are the very masks of the
STEP_LOSS_A and STEP_LOSS_B flags. Only the stopped state is recognised:
the field equals a constant exactly when it is zero. -/
theorem C6_mot_status_constants_miss_field :
    0x0020 &&& dSPIN_STATUS_MOT_STATUS = 0x0020 ∧
    (0x0020 &&& dSPIN_STATUS_MOT_STATUS) ∉ motStatusValues ∧
    motStatusValues = [0x0000, 0x2000, 0x4000, 0x6000] ∧
    dSPIN_STATUS_MOT_STATUS_ACCELERATION &&& dSPIN_STATUS_MOT_STATUS = 0 ∧
    dSPIN_STATUS_MOT_STATUS_DECELERATION &&& dSPIN_STATUS_MOT_STATUS = 0 ∧
    dSPIN_STATUS_MOT_STATUS_CONST_SPD &&& dSPIN_STATUS_MOT_STATUS = 0 ∧
    dSPIN_STATUS_MOT_STATUS_ACCELERATION = dSPIN_STATUS_STEP_LOSS_A ∧
    dSPIN_STATUS_MOT_STATUS_DECELERATION = dSPIN_STATUS_STEP_LOSS_B ∧
    dSPIN_STATUS_MOT_STATUS_CONST_SPD =
      dSPIN_STATUS_STEP_LOSS_A ||| dSPIN_STATUS_STEP_LOSS_B ∧
    (∀ w, w < 2 ^ 16 →
      ((w &&& dSPIN_STATUS_MOT_STATUS) ∈ motStatusValues ↔
        w &&& dSPIN_STATUS_MOT_STATUS = 0)) := by
  refine ⟨by decide, by decide, by decide, by decide, by decide, by decide,
    by decide, by decide, by decide, ?_⟩
  intro w _
  have hle : w &&& dSPIN_STATUS_MOT_STATUS ≤ 0x60 := Nat.and_le_right
  have hv : motStatusValues = [0x0000, 0x2000, 0x4000, 0x6000] := by decide
  rw [hv]
  simp only [List.mem_cons, List.mem_singleton, List.not_mem_nil, or_false]
  omega

/-- C7: the status word layout is a partition of the 16 bits: the fourteen flag
masks are each a single bit, are pairwise disjoint, are disjoint from the
2-bit motor status mask 0x0060, and together with that mask cover exactly
0xFFFF. -/
theorem C7_status_partition :
    statusFlags.length = 14 ∧
    (∀ f ∈ statusFlags, ∃ k, k < 16 ∧ f = 2 ^ k) ∧
    statusFlags.Pairwise (fun a b => a &&& b = 0) ∧
    (∀ f ∈ statusFlags, f &&& dSPIN_STATUS_MOT_STATUS = 0) ∧
    dSPIN_STATUS_MOT_STATUS = 2 ^ 5 + 2 ^ 6 ∧
    statusFlags.foldl (fun acc f => acc ||| f) dSPIN_STATUS_MOT_STATUS = 0xFFFF ∧
    statusFlags.sum + dSPIN_STATUS_MOT_STATUS = 0xFFFF := by
  decide

/-- C8: the latch-clearing status read and the register read are distinct wire
commands: the GET_STATUS opcode 0xD0 differs from the GET_PARAM opcode of the
STATUS register, `0x20 | 0x19 = 0x39`, and from `GET_PARAM | r` for every
register address r defined in dSPIN.h. -/
theorem C8_get_status_distinct :
    dSPIN_GET_STATUS = 0xD0 ∧
    dSPIN_GET_PARAM ||| dSPIN_STATUS = 0x39 ∧
    dSPIN_GET_STATUS ≠ dSPIN_GET_PARAM ||| dSPIN_STATUS ∧
    (∀ r ∈ registerAddresses, dSPIN_GET_STATUS ≠ dSPIN_GET_PARAM ||| r) := by
  decide

/-! ## The controller of section 4.4 -/

/-- The state after a sequence is the one `issueAll` reports, step by step. -/
theorem issueAll_cons_state (st : ControllerState) (c : Command) (cs : List Command) :
    (issueAll st (c :: cs)).1 = (issueAll (st.next c) cs).1 := by
  simp [issueAll, issue]

/-- Concatenating the `n` framed bytes of `x` onto `acc` shifts `acc` by `n`
bytes and adds the low `n` bytes of `x`. -/
theorem foldl_msbFirst (n acc x : Nat) :
    (msbFirst n x).foldl (fun a b => a * 256 + b) acc = acc * 256 ^ n + x % 256 ^ n := by
  induction n generalizing acc with
  | zero => simp [msbFirst, Nat.mod_one]
  | succ n ih =>
    have h255 : (255 : Nat) = 2 ^ 8 - 1 := by norm_num
    have hpow : (2 : Nat) ^ (8 * n) = 256 ^ n := by
      rw [pow_mul]; norm_num
    simp only [msbFirst, List.foldl_cons, ih]
    rw [h255, Nat.and_pow_two_sub_one_eq_mod, Nat.shiftRight_eq_div_pow, hpow]
    have hm : x % 256 ^ (n + 1) = x % 256 ^ n + 256 ^ n * (x / 256 ^ n % 256) := by
      rw [pow_succ, Nat.mod_mul]
    rw [hm, pow_succ]
    norm_num
    ring

/-- For a width that fits its payload bytes, the concatenated payload
truncated to the width is the value truncated to the width, whatever was
concatenated before it. -/
theorem concat_payload_mod (w acc v : Nat) (hw : w ≤ 8 * payloadLen w) :
    ((payload w v).foldl (fun a b => a * 256 + b) acc) % 2 ^ w = v % 2 ^ w := by
  unfold payload widthMask
  rw [foldl_msbFirst, Nat.and_pow_two_sub_one_eq_mod]
  have hpow : (256 : Nat) ^ payloadLen w = 2 ^ w * 2 ^ (8 * payloadLen w - w) := by
    rw [← pow_add]
    have : w + (8 * payloadLen w - w) = 8 * payloadLen w := by omega
    rw [this, pow_mul]; norm_num
  have hlt : v % 2 ^ w < 256 ^ payloadLen w := by
    have h1 : v % 2 ^ w < 2 ^ w := Nat.mod_lt _ (by positivity)
    have h2 : 2 ^ w ≤ 256 ^ payloadLen w := by
      rw [hpow]; exact Nat.le_mul_of_pos_right _ (by positivity)
    omega
  rw [Nat.mod_eq_of_lt hlt, hpow]
  have : acc * (2 ^ w * 2 ^ (8 * payloadLen w - w)) =
      2 ^ w * (acc * 2 ^ (8 * payloadLen w - w)) := by ring
  rw [this, Nat.mul_add_mod, Nat.mod_mod]

/-- Every register of the table fits the payload bytes its width selects. -/
theorem register_width_fits (reg : Register) : reg.width ≤ 8 * payloadLen reg.width := by
  cases reg <;> decide

/-- C10: for every register of the register table and every unsigned value v,
decoding the bytes produced by encoding SET_PARAM of v to that register (the
whole frame, or its payload bytes alone) gives `v & (2^width - 1)` with width
the register's bit width, and the same holds of the payload framing at every
width up to 24 bits; writing 0x1FFF to the 12-bit ACC register produces the
same bytes as writing 0xFFF. -/
theorem C10_set_param_round_trip (reg : Register) (v : Nat) :
    decodeParamResponse reg (encodeSetParam reg v) = v &&& (2 ^ reg.width - 1) ∧
    decodeParamResponse reg (payload reg.width v) = v &&& (2 ^ reg.width - 1) ∧
    v &&& (2 ^ reg.width - 1) = v % 2 ^ reg.width ∧
    (∀ w, w ≤ 24 → concatMsbFirst (payload w v) &&& widthMask w = v &&& (2 ^ w - 1)) ∧
    payload Register.ACC.width 0x1FFF = payload Register.ACC.width 0xFFF ∧
    encodeSetParam .ACC 0x1FFF = encodeSetParam .ACC 0xFFF ∧
    encodeSetParam .ACC 0x1FFF = [0x05, 0x0F, 0xFF] := by
  refine ⟨?_, ?_, Nat.and_pow_two_sub_one_eq_mod _ _, ?_, by decide, by decide,
    by decide⟩
  · unfold decodeParamResponse encodeSetParam concatMsbFirst widthMask
    rw [Nat.and_pow_two_sub_one_eq_mod, Nat.and_pow_two_sub_one_eq_mod, List.foldl_cons]
    exact concat_payload_mod _ _ _ (register_width_fits reg)
  · unfold decodeParamResponse concatMsbFirst widthMask
    rw [Nat.and_pow_two_sub_one_eq_mod, Nat.and_pow_two_sub_one_eq_mod]
    exact concat_payload_mod _ _ _ (register_width_fits reg)
  · intro w hw
    unfold concatMsbFirst widthMask
    rw [Nat.and_pow_two_sub_one_eq_mod, Nat.and_pow_two_sub_one_eq_mod]
    refine concat_payload_mod _ _ _ ?_
    unfold payloadLen
    split_ifs <;> omega

/-! ## Values written by the demos -/

/-- C13: the power-up CONFIG value 0x2E88 the demos check for decodes, under
the CONFIG field masks of dSPIN.h, to the options the header marks as default,
OSC_SEL = INT_16MHZ_OSCOUT_2MHZ and SW_MODE = SW_HARD_STOP; every other field
holds a named option (VS_COMP_DISABLE, OC_SD_ENABLE, SR_290V_us, PWM_MUL_1,
PWM_DIV_2), the value is the OR of these seven options, and no bit outside the
seven field masks is set. -/
theorem C13_power_up_config_decodes :
    CONFIG_POWER_UP = 0x2E88 ∧
    CONFIG_POWER_UP &&& dSPIN_CONFIG_OSC_SEL = dSPIN_CONFIG_INT_16MHZ_OSCOUT_2MHZ ∧
    CONFIG_POWER_UP &&& dSPIN_CONFIG_SW_MODE = dSPIN_CONFIG_SW_HARD_STOP ∧
    CONFIG_POWER_UP &&& dSPIN_CONFIG_EN_VSCOMP = dSPIN_CONFIG_VS_COMP_DISABLE ∧
    CONFIG_POWER_UP &&& dSPIN_CONFIG_OC_SD = dSPIN_CONFIG_OC_SD_ENABLE ∧
    CONFIG_POWER_UP &&& dSPIN_CONFIG_POW_SR = dSPIN_CONFIG_SR_290V_us ∧
    CONFIG_POWER_UP &&& dSPIN_CONFIG_F_PWM_DEC = dSPIN_CONFIG_PWM_MUL_1 ∧
    CONFIG_POWER_UP &&& dSPIN_CONFIG_F_PWM_INT = dSPIN_CONFIG_PWM_DIV_2 ∧
    CONFIG_POWER_UP =
      dSPIN_CONFIG_PWM_DIV_2 ||| dSPIN_CONFIG_PWM_MUL_1 ||| dSPIN_CONFIG_SR_290V_us
        ||| dSPIN_CONFIG_OC_SD_ENABLE ||| dSPIN_CONFIG_VS_COMP_DISABLE
        ||| dSPIN_CONFIG_SW_HARD_STOP ||| dSPIN_CONFIG_INT_16MHZ_OSCOUT_2MHZ ∧
    configFieldMasks.foldl (fun acc m => acc ||| m) 0 = 0xFFBF ∧
    CONFIG_POWER_UP &&& (0xFFFF ^^^ configFieldMasks.foldl (fun acc m => acc ||| m) 0) = 0 := by
  decide

/-- C15 (the CONFIG write of run and of move in dSPIN_run.c): the value written
is 0x1E90; its OC_SD field is OC_SD_ENABLE, not the OC_SD_DISABLE of the
comment above the call, and its SW_MODE field is SW_USER, not SW_HARD_STOP;
the other five fields are as the comment lists (PWM_DIV_1, PWM_MUL_2,
SR_290V_us, VS_COMP_DISABLE, INT_16MHZ). -/
theorem C15_run_config_differs_from_comment :
    runConfigValue = 0x1E90 ∧ moveConfigValue = 0x1E90 ∧
    runConfigValue &&& dSPIN_CONFIG_OC_SD = dSPIN_CONFIG_OC_SD_ENABLE ∧
    runConfigValue &&& dSPIN_CONFIG_OC_SD ≠ dSPIN_CONFIG_OC_SD_DISABLE ∧
    runConfigValue &&& dSPIN_CONFIG_SW_MODE = dSPIN_CONFIG_SW_USER ∧
    runConfigValue &&& dSPIN_CONFIG_SW_MODE ≠ dSPIN_CONFIG_SW_HARD_STOP ∧
    runConfigValue &&& dSPIN_CONFIG_F_PWM_INT = dSPIN_CONFIG_PWM_DIV_1 ∧
    runConfigValue &&& dSPIN_CONFIG_F_PWM_DEC = dSPIN_CONFIG_PWM_MUL_2 ∧
    runConfigValue &&& dSPIN_CONFIG_POW_SR = dSPIN_CONFIG_SR_290V_us ∧
    runConfigValue &&& dSPIN_CONFIG_EN_VSCOMP = dSPIN_CONFIG_VS_COMP_DISABLE ∧
    runConfigValue &&& dSPIN_CONFIG_OSC_SEL = dSPIN_CONFIG_INT_16MHZ := by
  decide

/-- C17: the STEP_MODE value every demo writes,
`!dSPIN_SYNC_EN | dSPIN_STEP_SEL_1 | dSPIN_SYNC_SEL_1`, evaluates to 0x10 and
decodes as the comment states: the SYNC_EN bit (0x80) is clear, the STEP_SEL
field (mask 0x07) is full step, dSPIN_STEP_SEL_1, and the SYNC_SEL field (mask
0x70) is dSPIN_SYNC_SEL_1. -/
theorem C17_step_mode_value :
    stepModeValue = 0x10 ∧
    cNot dSPIN_SYNC_EN = 0 ∧
    dSPIN_STEP_MODE_SYNC_EN = 0x80 ∧
    stepModeValue &&& dSPIN_STEP_MODE_SYNC_EN = 0 ∧
    dSPIN_STEP_MODE_STEP_SEL = 0x07 ∧
    stepModeValue &&& dSPIN_STEP_MODE_STEP_SEL = dSPIN_STEP_SEL_1 ∧
    dSPIN_STEP_MODE_SYNC_SEL = 0x70 ∧
    stepModeValue &&& dSPIN_STEP_MODE_SYNC_SEL = dSPIN_SYNC_SEL_1 := by
  decide

/-! ## The opcode byte space -/

/-- Every opcode form occurs in the list of all forms. -/
theorem mem_allOpcodeForms (f : OpcodeForm) : f ∈ allOpcodeForms := by
  cases f with
  | GO_UNTIL a d => cases a <;> cases d <;> simp [allOpcodeForms]
  | RELEASE_SW a d => cases a <;> cases d <;> simp [allOpcodeForms]
  | _ => simp [allOpcodeForms, List.mem_finRange]

/-- C18: the opcode byte space is unambiguous: over all commands of dSPIN.h
other than NOP, with every register address (SET_PARAM | r, GET_PARAM | r),
every direction and every action variant, two opcode bytes are equal only if
they come from the same command with the same register, direction and action;
and no SET_PARAM | r equals the NOP byte 0x00. -/
theorem C18_opcode_bytes_unambiguous :
    (∀ f g : OpcodeForm, f.byte = g.byte → f = g) ∧
    (allOpcodeForms.map OpcodeForm.byte).Nodup ∧
    allOpcodeForms.length = 76 ∧
    (List.finRange 25).map regOf = registerAddresses ∧
    (∀ r : Fin 25, (OpcodeForm.SET_PARAM r).byte ≠ dSPIN_NOP) ∧
    (∀ r ∈ registerAddresses, dSPIN_SET_PARAM ||| r ≠ dSPIN_NOP) ∧
    dSPIN_NOP = 0x00 := by
  have hnodup : (allOpcodeForms.map OpcodeForm.byte).Nodup := by decide
  refine ⟨?_, hnodup, by decide, by decide, by decide, by decide, rfl⟩
  intro f g h
  exact List.inj_on_of_nodup_map hnodup (mem_allOpcodeForms f) (mem_allOpcodeForms g) h

/-! ## Unit conversion -/

/-- Clamping to a register range is monotone. -/
theorem clampToReg_mono (maxVal : Nat) (a b : Int) (h : a ≤ b) :
    clampToReg maxVal a ≤ clampToReg maxVal b := by
  unfold clampToReg
  omega

/-- Rounding a rational to the nearest integer is monotone. -/
theorem round_le_round {a b : ℚ} (h : a ≤ b) : round a ≤ round b := by
  rw [round_eq, round_eq]
  exact Int.floor_mono (by linarith)

/-- C11: the run-speed conversion (steps per second times 67.106, rounded,
limited to 20 bits) is monotonically non-decreasing in its input, returns 0
for every input less than or equal to 0, and returns exactly 0xFFFFF for every
input whose scaled value is at or above 0xFFFFF; it never exceeds 0xFFFFF. -/
theorem C11_run_speed_monotone_saturating :
    (∀ x y : ℚ, x ≤ y → runSpeedToReg x ≤ runSpeedToReg y) ∧
    (∀ x : ℚ, x ≤ 0 → runSpeedToReg x = 0) ∧
    (∀ x : ℚ, (0xFFFFF : ℚ) ≤ x * 67.106 → runSpeedToReg x = 0xFFFFF) ∧
    (∀ x : ℚ, runSpeedToReg x ≤ 0xFFFFF) ∧
    runSpeedToReg 10 = 671 ∧ runSpeedToReg 20000 = 0xFFFFF := by
  have hpos : (0 : ℚ) ≤ 67.106 := by norm_num
  have hsat : ∀ x : ℚ, (0xFFFFF : ℚ) ≤ x * 67.106 → runSpeedToReg x = 0xFFFFF := by
    intro x h
    unfold runSpeedToReg clampToReg
    have h2 : round (((0xFFFFF : ℕ) : ℚ)) ≤ round (x * 67.106) :=
      round_le_round (by exact_mod_cast h)
    rw [round_natCast] at h2
    omega
  refine ⟨?_, ?_, hsat, ?_, ?_, hsat 20000 (by norm_num)⟩
  · intro x y h
    unfold runSpeedToReg
    exact clampToReg_mono _ _ _ (round_le_round (mul_le_mul_of_nonneg_right h hpos))
  · intro x h
    unfold runSpeedToReg clampToReg
    have h2 : round (x * 67.106) ≤ round (0 : ℚ) :=
      round_le_round (mul_nonpos_of_nonpos_of_nonneg h hpos)
    rw [round_zero] at h2
    omega
  · intro x
    unfold runSpeedToReg clampToReg
    omega
  · unfold runSpeedToReg clampToReg
    have : round ((10 : ℚ) * 67.106) = 671 := by
      rw [round_eq, Int.floor_eq_iff]; norm_num
    rw [this]; rfl

/-- C12: the acceleration conversion (steps per second squared times 0.137438,
rounded, limited to 12 bits) returns 0 for input 0 and returns exactly 0xFFF
for every input whose scaled value is at or above 0xFFF, for example 30000;
no input gives more than 0xFFF, and a larger input never gives a smaller
value. -/
theorem C12_accel_zero_and_saturation :
    accelToReg 0 = 0 ∧
    (∀ x : ℚ, (0xFFF : ℚ) ≤ x * 0.137438 → accelToReg x = 0xFFF) ∧
    accelToReg 30000 = 0xFFF ∧
    (∀ x : ℚ, accelToReg x ≤ 0xFFF) ∧
    (∀ x y : ℚ, x ≤ y → accelToReg x ≤ accelToReg y) := by
  have hpos : (0 : ℚ) ≤ 0.137438 := by norm_num
  have hsat : ∀ x : ℚ, (0xFFF : ℚ) ≤ x * 0.137438 → accelToReg x = 0xFFF := by
    intro x h
    unfold accelToReg clampToReg
    have h2 : round (((0xFFF : ℕ) : ℚ)) ≤ round (x * 0.137438) :=
      round_le_round (by exact_mod_cast h)
    rw [round_natCast] at h2
    omega
  refine ⟨?_, hsat, hsat 30000 (by norm_num), ?_, ?_⟩
  · unfold accelToReg clampToReg
    rw [zero_mul, round_zero]; rfl
  · intro x
    unfold accelToReg clampToReg
    omega
  · intro x y h
    unfold accelToReg
    exact clampToReg_mono _ _ _ (round_le_round (mul_le_mul_of_nonneg_right h hpos))

/-! ## Traces of the demo programs -/

/-- A busy-line poll with a HIGH read within its fuel finishes. -/
theorem awaitHigh_some (pin : Nat → Bool) (fuel r : Nat)
    (h : ∃ k, k < fuel ∧ pin (r + k) = true) : ∃ r2, awaitHigh pin fuel r = some r2 := by
  induction fuel generalizing r with
  | zero => obtain ⟨k, hk, _⟩ := h; omega
  | succ f ih =>
    unfold awaitHigh
    by_cases hp : pin r = true
    · exact ⟨r + 1, by simp [hp]⟩
    · simp only [hp, Bool.false_eq_true, ↓reduceIte]
      apply ih
      obtain ⟨k, hk, hpk⟩ := h
      cases k with
      | zero => simp [hp] at hpk
      | succ j => exact ⟨j, by omega, by rw [← hpk]; congr 1; omega⟩

/-- A busy-line poll with no HIGH read within its fuel does not finish. -/
theorem awaitHigh_none (pin : Nat → Bool) (fuel r : Nat)
    (h : ¬ ∃ k, k < fuel ∧ pin (r + k) = true) : awaitHigh pin fuel r = none := by
  induction fuel generalizing r with
  | zero => rfl
  | succ f ih =>
    unfold awaitHigh
    have hp : pin r = false := by
      by_contra hc
      exact h ⟨0, by omega, by simpa using hc⟩
    simp only [hp, Bool.false_eq_true, ↓reduceIte]
    apply ih
    rintro ⟨k, hk, hpk⟩
    exact h ⟨k + 1, by omega, by rw [← hpk]; congr 1; omega⟩

@[simp] theorem emit_trace (m : Machine) (e : Event) :
    (m.emit e).trace = m.trace ++ [e] := rfl
@[simp] theorem emit_reads (m : Machine) (e : Event) : (m.emit e).reads = m.reads := rfl
@[simp] theorem emit_halt (m : Machine) (e : Event) : (m.emit e).halt = m.halt := rfl
@[simp] theorem start_trace : Machine.start.trace = [] := rfl
@[simp] theorem start_reads : Machine.start.reads = 0 := rfl
@[simp] theorem start_halt : Machine.start.halt = none := rfl

@[simp] theorem ite_emit_trace (c : Prop) [Decidable c] (m : Machine) (e : Event) :
    (if c then m.emit e else m).trace = m.trace ++ (if c then [e] else []) := by
  split <;> simp

@[simp] theorem ite_emit_reads (c : Prop) [Decidable c] (m : Machine) (e : Event) :
    (if c then m.emit e else m).reads = m.reads := by
  split <;> simp

@[simp] theorem ite_emit_halt (c : Prop) [Decidable c] (m : Machine) (e : Event) :
    (if c then m.emit e else m).halt = m.halt := by
  split <;> simp

@[simp] theorem calls_nil : calls [] = [] := rfl

@[simp] theorem calls_cons (e : Event) (es : List Event) :
    calls (e :: es) = if e.isCall then e :: calls es else calls es := by
  simp only [calls, List.filter_cons]

@[simp] theorem calls_append (a b : List Event) : calls (a ++ b) = calls a ++ calls b := by
  simp [calls]

@[simp] theorem calls_ite_printf (c : Prop) [Decidable c] (f : String) (args : List Int) :
    calls (if c then [Event.printf f args] else []) = [] := by
  split <;> simp [Event.isCall]

@[simp] theorem motions_nil : motions [] = [] := rfl

@[simp] theorem motions_cons (e : Event) (es : List Event) :
    motions (e :: es) = if e.isMotion then e :: motions es else motions es := by
  simp only [motions, List.filter_cons]

@[simp] theorem motions_append (a b : List Event) :
    motions (a ++ b) = motions a ++ motions b := by
  simp [motions]

@[simp] theorem motions_ite_printf (c : Prop) [Decidable c] (f : String) (args : List Int) :
    motions (if c then [Event.printf f args] else []) = [] := by
  split <;> simp [Event.isMotion]

/-- The library calls of a run of main of dSPIN_test.c are the first `n` calls
of the program, and all 17 when main returns. -/
theorem test_main_calls (sup : Support) (chip : Chip) (fuel : Nat) :
    ∃ n, calls (dSPIN_test_main sup chip fuel).trace = (testCalls sup).take n ∧
      ((dSPIN_test_main sup chip fuel).halt = none → n = 17) := by
  have h1 : stepModeValue = 0x10 := by decide
  have h2 : testConfigValue = 0x1E00 := by decide
  have h3 : dSPIN_OCD_TH_3000mA = 0x07 := by decide
  unfold dSPIN_test_main
  simp only [waitBusy, emit_reads, start_reads, ite_emit_reads]
  cases awaitHigh chip.BUSYN fuel 0 with
  | none => exact ⟨11, by simp [testCalls, Event.isCall, h1, h2, h3]⟩
  | some k1 =>
    simp only [emit_reads]
    cases awaitHigh chip.BUSYN fuel k1 with
    | none => exact ⟨12, by simp [testCalls, Event.isCall, h1, h2, h3]⟩
    | some k2 =>
      simp only [emit_reads]
      cases awaitHigh chip.BUSYN fuel k2 with
      | none => exact ⟨13, by simp [testCalls, Event.isCall, h1, h2, h3]⟩
      | some k3 =>
        simp only [emit_reads]
        cases awaitHigh chip.BUSYN fuel k3 with
        | none => exact ⟨14, by simp [testCalls, Event.isCall, h1, h2, h3]⟩
        | some k4 =>
          simp only [emit_reads]
          cases awaitHigh chip.BUSYN fuel k4 with
          | none => exact ⟨16, by simp [testCalls, Event.isCall, h1, h2, h3, testSpeed]⟩
          | some k5 =>
            exact ⟨17, by simp [testCalls, Event.isCall, h1, h2, h3, testSpeed]⟩

/-- Main of dSPIN_test.c returns when every poll of the busy line meets a HIGH
read within its fuel. -/
theorem test_main_returns (sup : Support) (chip : Chip) (fuel : Nat)
    (h : ∀ r, ∃ k, k < fuel ∧ chip.BUSYN (r + k) = true) :
    (dSPIN_test_main sup chip fuel).halt = none := by
  unfold dSPIN_test_main
  simp only [waitBusy, emit_reads, start_reads, ite_emit_reads]
  obtain ⟨k1, e1⟩ := awaitHigh_some chip.BUSYN fuel 0 (h 0)
  obtain ⟨k2, e2⟩ := awaitHigh_some chip.BUSYN fuel k1 (h k1)
  obtain ⟨k3, e3⟩ := awaitHigh_some chip.BUSYN fuel k2 (h k2)
  obtain ⟨k4, e4⟩ := awaitHigh_some chip.BUSYN fuel k3 (h k3)
  obtain ⟨k5, e5⟩ := awaitHigh_some chip.BUSYN fuel k4 (h k4)
  simp [e1, e2, e3, e4, e5]

/-- Every initial part of the call sequence of dSPIN_test.c has a SoftStop
between motion commands and its motion commands after the configuration. -/
theorem testCalls_take_ordered (sup : Support) (n : Nat) :
    stopsBetweenMotions false ((testCalls sup).take n) = true ∧
    configBeforeMotion ((testCalls sup).take n) = true ∧
    (((testCalls sup).take n).any Event.isMotion = true →
      writesBeforeMotion ((testCalls sup).take n) =
        [dSPIN_STEP_MODE, dSPIN_MAX_SPEED, dSPIN_FS_SPD, dSPIN_ACC, dSPIN_OCD_TH,
         dSPIN_CONFIG, dSPIN_KVAL_RUN]) := by
  by_cases hn : n ≤ 17
  · interval_cases n <;>
      simp [testCalls, stopsBetweenMotions, configBeforeMotion, writesBeforeMotion,
        Event.isMotion, Event.isSoftStop, Event.isSetParam]
  · rw [List.take_of_length_le (by simp [testCalls]; omega)]
    simp [testCalls, stopsBetweenMotions, configBeforeMotion, writesBeforeMotion,
      Event.isMotion, Event.isSoftStop, Event.isSetParam]

/-- The two checks do reject: two motion commands with no SoftStop between
them, a register write after a motion command, and a motion command with no
GetStatus before it. -/
theorem trace_checks_reject :
    stopsBetweenMotions false [.dSPIN_Move FWD 200, .dSPIN_Run FWD 0] = false ∧
    stopsBetweenMotions false
      [.dSPIN_Move FWD 200, .dSPIN_SoftStop, .dSPIN_Run FWD 0] = true ∧
    configBeforeMotion
      [.dSPIN_GetStatus, .dSPIN_Move FWD 200, .dSPIN_SetParam dSPIN_ACC 0] = false ∧
    configBeforeMotion [.dSPIN_Move FWD 200] = false := by
  decide

/-- C14: in the sequence of commands issued by main of dSPIN_test.c (however
far the run gets while it polls the busy line), every two consecutive motion
commands are separated by a SoftStop, and no motion command is issued before
the configuration writes (seven registers) and the GetStatus call; a run that
returns has issued
the whole sequence, whose motion commands are Move(FWD, 200), Move(REV, 200)
and Run(FWD, SpdCalc(10)). -/
theorem C14_test_main_stops_between_motions (sup : Support) (chip : Chip) (fuel : Nat) :
    (∃ n, calls (dSPIN_test_main sup chip fuel).trace = (testCalls sup).take n) ∧
    stopsBetweenMotions false (calls (dSPIN_test_main sup chip fuel).trace) = true ∧
    configBeforeMotion (calls (dSPIN_test_main sup chip fuel).trace) = true ∧
    ((calls (dSPIN_test_main sup chip fuel).trace).any Event.isMotion = true →
      writesBeforeMotion (calls (dSPIN_test_main sup chip fuel).trace) =
        [dSPIN_STEP_MODE, dSPIN_MAX_SPEED, dSPIN_FS_SPD, dSPIN_ACC, dSPIN_OCD_TH,
         dSPIN_CONFIG, dSPIN_KVAL_RUN]) ∧
    ((dSPIN_test_main sup chip fuel).halt = none →
      calls (dSPIN_test_main sup chip fuel).trace = testCalls sup) ∧
    ((∀ r, ∃ k, k < fuel ∧ chip.BUSYN (r + k) = true) →
      (dSPIN_test_main sup chip fuel).halt = none) ∧
    motions (testCalls sup) =
      [.dSPIN_Move FWD 200, .dSPIN_Move REV 200, .dSPIN_Run FWD (sup.SpdCalc 10)] ∧
    testCalls sup =
      [.dSPIN_init, .dSPIN_GetParam dSPIN_CONFIG,
       .dSPIN_SetParam dSPIN_STEP_MODE 0x10,
       .dSPIN_SetParam dSPIN_MAX_SPEED (sup.MaxSpdCalc 400),
       .dSPIN_SetParam dSPIN_FS_SPD (sup.FSCalc 300),
       .dSPIN_SetParam dSPIN_ACC 0x7ff,
       .dSPIN_SetParam dSPIN_OCD_TH 0x07,
       .dSPIN_SetParam dSPIN_CONFIG 0x1E00,
       .dSPIN_SetParam dSPIN_KVAL_RUN 0x9F,
       .dSPIN_GetStatus,
       .dSPIN_Move FWD 200, .dSPIN_SoftStop,
       .dSPIN_Move REV 200, .dSPIN_SoftStop,
       .dSPIN_Run FWD (sup.SpdCalc 10),
       .dSPIN_GetStatus, .dSPIN_GetParam dSPIN_SPEED] := by
  obtain ⟨n, hn, hret⟩ := test_main_calls sup chip fuel
  refine ⟨⟨n, hn⟩, ?_, ?_, ?_, ?_, test_main_returns sup chip fuel, ?_, rfl⟩
  · rw [hn]; exact (testCalls_take_ordered sup n).1
  · rw [hn]; exact (testCalls_take_ordered sup n).2.1
  · rw [hn]; exact (testCalls_take_ordered sup n).2.2
  · intro h
    rw [hn, hret h]
    rfl
  · simp [testCalls, Event.isMotion]

/-- The value of `atoi` is an `int`. -/
theorem atoi_range (s : String) : INT_MIN ≤ atoi s ∧ atoi s ≤ INT_MAX := by
  unfold atoi INT_MIN INT_MAX
  simp only []
  omega

/-- Function run of dSPIN_run.c: when its poll of the busy line finishes it
returns after one more motion command, the Run; when the poll does not finish
it has issued no motion command. -/
theorem run_motions (sup : Support) (chip : Chip) (fuel : Nat) (speed dir : Int)
    (m : Machine) :
    (∀ k, awaitHigh chip.BUSYN fuel m.reads = some k →
      (run sup chip fuel speed dir m).halt = m.halt ∧
      motions (run sup chip fuel speed dir m).trace =
        motions m.trace ++ [.dSPIN_Run (toByte dir) (sup.SpdCalc speed)]) ∧
    (awaitHigh chip.BUSYN fuel m.reads = none →
      (run sup chip fuel speed dir m).halt = some .polling ∧
      motions (run sup chip fuel speed dir m).trace = motions m.trace) := by
  unfold run
  simp only [waitBusy, emit_reads, ite_emit_reads]
  constructor
  · intro k hk
    simp [hk, Event.isMotion]
  · intro hk
    simp [hk, Event.isMotion]

/-- Function move of dSPIN_run.c: when its poll of the busy line finishes it
returns after one more motion command, the Move; when the poll does not finish
it has issued no motion command. -/
theorem move_motions (sup : Support) (chip : Chip) (fuel : Nat) (dist dir speed : Int)
    (m : Machine) :
    (∀ k, awaitHigh chip.BUSYN fuel m.reads = some k →
      (move sup chip fuel dist dir speed m).halt = m.halt ∧
      motions (move sup chip fuel dist dir speed m).trace =
        motions m.trace ++ [.dSPIN_Move (toByte dir) (toULong dist)]) ∧
    (awaitHigh chip.BUSYN fuel m.reads = none →
      (move sup chip fuel dist dir speed m).halt = some .polling ∧
      motions (move sup chip fuel dist dir speed m).trace = motions m.trace) := by
  unfold move
  simp only [waitBusy, emit_reads, ite_emit_reads]
  constructor
  · intro k hk
    simp [hk, Event.isMotion]
  · intro hk
    simp [hk, Event.isMotion]

/-- The run branch of main of dSPIN_run.c, unfolded: the first argument does
not begin with the character 0 and is not the word for. -/
theorem run_main_run_branch (sup : Support) (chip : Chip) (fuel : Nat)
    (prog arg : String) (more : List String)
    (h0 : firstChar arg ≠ '0') (hfor : arg ≠ "for") :
    dSPIN_run_main sup chip fuel (prog :: arg :: more) =
      run sup chip fuel
        (if atoi arg < 0 then wrapInt (0 - atoi arg) else atoi arg)
        (if atoi arg < 0 then (REV : Int) else (FWD : Int))
        ((Machine.start.emit .dSPIN_init).emit
          (.printf "starting motor with speed %i.\n"
            [if atoi arg < 0 then wrapInt (0 - atoi arg) else atoi arg])) := by
  unfold dSPIN_run_main
  simp only [h0, hfor, ↓reduceIte]

/-- Speed and direction the run branch passes on, for an argument above INT_MIN. -/
theorem run_branch_args (n : Int) (hmin : INT_MIN < n) (hmax : n ≤ INT_MAX) :
    (if n < 0 then wrapInt (0 - n) else n) = |n| ∧
    toByte (if n < 0 then (REV : Int) else (FWD : Int)) = (if n < 0 then REV else FWD) := by
  unfold INT_MIN at hmin
  unfold INT_MAX at hmax
  constructor
  · split
    · rename_i h
      rw [abs_of_neg h]
      unfold wrapInt
      omega
    · rename_i h
      rw [abs_of_nonneg (by omega)]
  · split <;> decide

/-- C19 (amended): in dSPIN_run.c main, for every first argument that does not
begin with the character 0 and is not the word for, with n its atoi value and
n greater than INT_MIN: once the busy line is read HIGH by the poll before the
motion command, the program returns having issued exactly one motion command,
Run(d, SpdCalc(|n|)), where d is REV if n < 0 and FWD otherwise; while the
busy line is read LOW throughout, the program issues no motion command and
keeps polling. -/
theorem C19_run_branch_one_run (sup : Support) (chip : Chip) (fuel : Nat)
    (prog arg : String) (more : List String)
    (h0 : firstChar arg ≠ '0') (hfor : arg ≠ "for") (hmin : INT_MIN < atoi arg) :
    ((∃ k, k < fuel ∧ chip.BUSYN k = true) →
      (dSPIN_run_main sup chip fuel (prog :: arg :: more)).halt = none ∧
      motions (dSPIN_run_main sup chip fuel (prog :: arg :: more)).trace =
        [.dSPIN_Run (if atoi arg < 0 then REV else FWD) (sup.SpdCalc |atoi arg|)]) ∧
    ((¬ ∃ k, k < fuel ∧ chip.BUSYN k = true) →
      (dSPIN_run_main sup chip fuel (prog :: arg :: more)).halt = some .polling ∧
      motions (dSPIN_run_main sup chip fuel (prog :: arg :: more)).trace = []) := by
  rw [run_main_run_branch sup chip fuel prog arg more h0 hfor]
  obtain ⟨hs, hd⟩ := run_branch_args (atoi arg) hmin (atoi_range arg).2
  rw [hs]
  constructor
  · intro hb
    obtain ⟨k, hk⟩ := awaitHigh_some chip.BUSYN fuel 0 (by simpa using hb)
    have := (run_motions sup chip fuel |atoi arg|
      (if atoi arg < 0 then (REV : Int) else (FWD : Int))
      ((Machine.start.emit .dSPIN_init).emit
        (.printf "starting motor with speed %i.\n" [|atoi arg|]))).1 k (by simpa using hk)
    rw [hd] at this
    simpa [Event.isMotion] using this
  · intro hb
    have hk := awaitHigh_none chip.BUSYN fuel 0 (by simpa using hb)
    have := (run_motions sup chip fuel |atoi arg|
      (if atoi arg < 0 then (REV : Int) else (FWD : Int))
      ((Machine.start.emit .dSPIN_init).emit
        (.printf "starting motor with speed %i.\n" [|atoi arg|]))).2 (by simpa using hk)
    simpa [Event.isMotion] using this

/-- C19 at the argument -300 with the busy line HIGH at the first read: main
returns having issued the single motion command Run(REV, SpdCalc(300)). -/
theorem C19_run_branch_one_run_witness :
    firstChar "-300" ≠ '0' ∧ "-300" ≠ "for" ∧ INT_MIN < atoi "-300" ∧
    atoi "-300" = -300 ∧
    (dSPIN_run_main ⟨fun _ => 0, fun _ => 0, fun z => z.toNat⟩
        ⟨fun _ => true, fun _ _ => 0, fun _ => 0⟩ 1 ["dSPIN_run", "-300"]).halt = none ∧
    motions (dSPIN_run_main ⟨fun _ => 0, fun _ => 0, fun z => z.toNat⟩
        ⟨fun _ => true, fun _ _ => 0, fun _ => 0⟩ 1 ["dSPIN_run", "-300"]).trace =
      [.dSPIN_Run (if atoi "-300" < 0 then REV else FWD) (|atoi "-300"|).toNat] :=
  ⟨by decide, by decide, by decide, by decide,
   ((C19_run_branch_one_run ⟨fun _ => 0, fun _ => 0, fun z => z.toNat⟩
      ⟨fun _ => true, fun _ _ => 0, fun _ => 0⟩ 1 "dSPIN_run" "-300" []
      (by decide) (by decide) (by decide)).1 ⟨0, by decide, rfl⟩).1,
   ((C19_run_branch_one_run ⟨fun _ => 0, fun _ => 0, fun z => z.toNat⟩
      ⟨fun _ => true, fun _ _ => 0, fun _ => 0⟩ 1 "dSPIN_run" "-300" []
      (by decide) (by decide) (by decide)).1 ⟨0, by decide, rfl⟩).2⟩

/-- C19 as stated fails while the chip stays busy: at the argument 200, with
the busy line LOW at every read, main issues no motion command, whatever the
number of reads allowed. -/
theorem C19_no_run_while_busy :
    firstChar "200" ≠ '0' ∧ "200" ≠ "for" ∧ INT_MIN < atoi "200" ∧
    ∀ fuel,
      motions (dSPIN_run_main ⟨fun _ => 0, fun _ => 0, fun z => z.toNat⟩
        ⟨fun _ => false, fun _ _ => 0, fun _ => 0⟩ fuel ["dSPIN_run", "200"]).trace = [] ∧
      (dSPIN_run_main ⟨fun _ => 0, fun _ => 0, fun z => z.toNat⟩
        ⟨fun _ => false, fun _ _ => 0, fun _ => 0⟩ fuel ["dSPIN_run", "200"]).halt =
        some .polling := by
  refine ⟨by decide, by decide, by decide, ?_⟩
  intro fuel
  rw [run_main_run_branch _ _ fuel "dSPIN_run" "200" [] (by decide) (by decide)]
  have hk := awaitHigh_none (fun _ => false) fuel 0 (by simp)
  have := (run_motions ⟨fun _ => 0, fun _ => 0, fun z => z.toNat⟩
    ⟨fun _ => false, fun _ _ => 0, fun _ => 0⟩ fuel
    (if atoi "200" < 0 then wrapInt (0 - atoi "200") else atoi "200")
    (if atoi "200" < 0 then (REV : Int) else (FWD : Int))
    ((Machine.start.emit .dSPIN_init).emit
      (.printf "starting motor with speed %i.\n"
        [if atoi "200" < 0 then wrapInt (0 - atoi "200") else atoi "200"]))).2
    (by simpa using hk)
  exact ⟨by simpa [Event.isMotion] using this.2, this.1⟩

/-- C20 (the for branch of main in dSPIN_run.c): the distance and the sign are
taken from `atoi(argv[1])`, the atoi value of the word for, which is 0, and
not from the second argument: the line printed is always "moving 0 steps.",
the direction is always FWD, and the distance passed to Move is the atoi value
n of the second argument converted to unsigned long as it is, sign included.
With second argument -5 and the busy line HIGH the motion command is
Move(FWD, 4294967291), with second argument 5 it is Move(FWD, 5) after
"moving 0 steps.". -/
theorem C20_for_branch_ignores_second_argument (sup : Support) (chip : Chip) (fuel : Nat)
    (prog arg2 : String) (more : List String) :
    atoi "for" = 0 ∧
    Event.printf "moving %i steps.\n" [0] ∈
      (dSPIN_run_main sup chip fuel (prog :: "for" :: arg2 :: more)).trace ∧
    ((∃ k, k < fuel ∧ chip.BUSYN k = true) →
      motions (dSPIN_run_main sup chip fuel (prog :: "for" :: arg2 :: more)).trace =
        [.dSPIN_Move FWD (toULong (atoi arg2))]) ∧
    atoi "-5" = -5 ∧ toULong (-5) = 4294967291 ∧ atoi "5" = 5 ∧ toULong 5 = 5 ∧
    motions (dSPIN_run_main ⟨fun _ => 0, fun _ => 0, fun _ => 0⟩
        ⟨fun _ => true, fun _ _ => 0, fun _ => 0⟩ 1 ["dSPIN_run", "for", "-5"]).trace =
      [.dSPIN_Move FWD 4294967291] := by
  have hbranch : dSPIN_run_main sup chip fuel (prog :: "for" :: arg2 :: more) =
      move sup chip fuel (atoi arg2) (FWD : Int) 20
        ((Machine.start.emit .dSPIN_init).emit (.printf "moving %i steps.\n" [0])) := by
    have hf : firstChar "for" ≠ '0' := by decide
    have ha : atoi "for" = 0 := by decide
    unfold dSPIN_run_main
    simp only [hf, ha, ↓reduceIte, lt_self_iff_false]
  refine ⟨by decide, ?_, ?_, by decide, by decide, by decide, by decide, by decide⟩
  · rw [hbranch]
    unfold move
    simp only [waitBusy, emit_reads, ite_emit_reads]
    cases awaitHigh chip.BUSYN fuel Machine.start.reads <;> simp
  · intro hb
    rw [hbranch]
    obtain ⟨k, hk⟩ := awaitHigh_some chip.BUSYN fuel 0 (by simpa using hb)
    have := ((move_motions sup chip fuel (atoi arg2) (FWD : Int) 20
      ((Machine.start.emit .dSPIN_init).emit (.printf "moving %i steps.\n" [0]))).1 k
      (by simpa using hk)).2
    have hd : toByte (FWD : Int) = FWD := by decide
    rw [hd] at this
    simpa [Event.isMotion] using this

/-! ## The stop branch of dSPIN_run.c -/

/-- C21: in dSPIN_run.c main, when the first argument begins with the
character 0 and a second argument is present, the program returns having made
exactly one library call after dSPIN_init and no register write: SoftHiZ
(opcode constant 0xA0) if the second argument is exactly "soft", HardHiZ
(0xA8) otherwise; it issues no motion command and never SoftStop or HardStop
(0xB0, 0xB8). -/
theorem C21_stop_branch_hiz (sup : Support) (chip : Chip) (fuel : Nat)
    (prog arg1 arg2 : String) (more : List String) (h0 : firstChar arg1 = '0') :
    (dSPIN_run_main sup chip fuel (prog :: arg1 :: arg2 :: more)).halt = none ∧
    (dSPIN_run_main sup chip fuel (prog :: arg1 :: arg2 :: more)).trace =
      (if arg2 = "soft" then
        [.dSPIN_init, .printf "stopping motor\n" [], .dSPIN_SoftHiZ, .printf "softly\n" []]
       else [.dSPIN_init, .printf "stopping motor\n" [], .dSPIN_HardHiZ]) ∧
    calls (dSPIN_run_main sup chip fuel (prog :: arg1 :: arg2 :: more)).trace =
      [.dSPIN_init, if arg2 = "soft" then .dSPIN_SoftHiZ else .dSPIN_HardHiZ] ∧
    (dSPIN_run_main sup chip fuel (prog :: arg1 :: arg2 :: more)).trace.all
      (fun e => !e.isSetParam && !e.isSoftStop && !e.isMotion) = true ∧
    dSPIN_SOFT_HIZ = 0xA0 ∧ dSPIN_HARD_HIZ = 0xA8 ∧
    dSPIN_SOFT_STOP = 0xB0 ∧ dSPIN_HARD_STOP = 0xB8 := by
  have hs : SOFT_STOP = 0 := rfl
  have hh : HARD_STOP ≠ 0 := by decide
  unfold dSPIN_run_main
  simp only [h0, ↓reduceIte, stop, hs, hh, ne_eq, not_true_eq_false, not_false_eq_true]
  by_cases h2 : arg2 = "soft"
  · simp [h2, Event.isCall, Event.isSetParam, Event.isSoftStop, Event.isMotion]
    decide
  · simp [h2, Event.isCall, Event.isSetParam, Event.isSoftStop, Event.isMotion]
    decide

/-- C21 at the arguments 0 and soft: the calls are dSPIN_init and SoftHiZ. -/
theorem C21_stop_branch_hiz_witness :
    firstChar "0" = '0' ∧
    (dSPIN_run_main ⟨fun _ => 0, fun _ => 0, fun _ => 0⟩
      ⟨fun _ => false, fun _ _ => 0, fun _ => 0⟩ 0 ["dSPIN_run", "0", "soft"]).halt = none ∧
    calls (dSPIN_run_main ⟨fun _ => 0, fun _ => 0, fun _ => 0⟩
      ⟨fun _ => false, fun _ _ => 0, fun _ => 0⟩ 0 ["dSPIN_run", "0", "soft"]).trace =
      [.dSPIN_init, if "soft" = "soft" then .dSPIN_SoftHiZ else .dSPIN_HardHiZ] ∧
    calls (dSPIN_run_main ⟨fun _ => 0, fun _ => 0, fun _ => 0⟩
      ⟨fun _ => false, fun _ _ => 0, fun _ => 0⟩ 0 ["dSPIN_run", "0", "hard"]).trace =
      [.dSPIN_init, .dSPIN_HardHiZ] :=
  ⟨by decide,
   (C21_stop_branch_hiz ⟨fun _ => 0, fun _ => 0, fun _ => 0⟩
      ⟨fun _ => false, fun _ _ => 0, fun _ => 0⟩ 0 "dSPIN_run" "0" "soft" [] (by decide)).1,
   (C21_stop_branch_hiz ⟨fun _ => 0, fun _ => 0, fun _ => 0⟩
      ⟨fun _ => false, fun _ _ => 0, fun _ => 0⟩ 0 "dSPIN_run" "0" "soft" [] (by decide)).2.2.1,
   by decide⟩

/-! ## CONFIG fields -/

/-- An option inside its own field mask has no bit inside a disjoint mask. -/
theorem and_other_mask (o m m2 : Nat) (h : o &&& m = o) (hd : m &&& m2 = 0) :
    o &&& m2 = 0 := by
  rw [← h, Nat.land_assoc, hd, Nat.and_zero]

/-- C22: the seven CONFIG field masks (OSC_SEL 0x000F, SW_MODE 0x0010,
EN_VSCOMP 0x0020, OC_SD 0x0080, POW_SR 0x0300, F_PWM_DEC 0x1C00, F_PWM_INT
0xE000) are pairwise disjoint, and every named CONFIG option constant has all
its set bits inside the mask of its own field, so OR-ing one option per field
and masking with a field's mask gives back that field's option. -/
theorem C22_config_fields_disjoint :
    configFieldMasks = [0x000F, 0x0010, 0x0020, 0x0080, 0x0300, 0x1C00, 0xE000] ∧
    configFields.map Prod.fst = configFieldMasks ∧
    configFieldMasks.Pairwise (fun a b => a &&& b = 0) ∧
    (configFields.map fun f => f.2.length) = [13, 2, 2, 2, 3, 8, 7] ∧
    (∀ f ∈ configFields, ∀ o ∈ f.2, o &&& f.1 = o) ∧
    (∀ osc ∈ oscOptions, ∀ sw ∈ swModeOptions, ∀ vs ∈ vsCompOptions,
      ∀ oc ∈ ocSdOptions, ∀ sr ∈ slewRateOptions, ∀ mul ∈ pwmMulOptions,
      ∀ div ∈ pwmDivOptions,
        (div ||| mul ||| sr ||| oc ||| vs ||| sw ||| osc) &&& dSPIN_CONFIG_OSC_SEL = osc ∧
        (div ||| mul ||| sr ||| oc ||| vs ||| sw ||| osc) &&& dSPIN_CONFIG_SW_MODE = sw ∧
        (div ||| mul ||| sr ||| oc ||| vs ||| sw ||| osc) &&& dSPIN_CONFIG_EN_VSCOMP = vs ∧
        (div ||| mul ||| sr ||| oc ||| vs ||| sw ||| osc) &&& dSPIN_CONFIG_OC_SD = oc ∧
        (div ||| mul ||| sr ||| oc ||| vs ||| sw ||| osc) &&& dSPIN_CONFIG_POW_SR = sr ∧
        (div ||| mul ||| sr ||| oc ||| vs ||| sw ||| osc) &&& dSPIN_CONFIG_F_PWM_DEC = mul ∧
        (div ||| mul ||| sr ||| oc ||| vs ||| sw ||| osc) &&& dSPIN_CONFIG_F_PWM_INT = div) := by
  have hin : ∀ f ∈ configFields, ∀ o ∈ f.2, o &&& f.1 = o := by decide
  have hdis : configFieldMasks.Pairwise (fun a b => a &&& b = 0) := by decide
  refine ⟨by decide, by decide, hdis, by decide, hin, ?_⟩
  intro osc hosc sw hsw vs hvs oc hoc sr hsr mul hmul div hdiv
  have h1 := hin (dSPIN_CONFIG_OSC_SEL, oscOptions) (by simp [configFields]) osc hosc
  have h2 := hin (dSPIN_CONFIG_SW_MODE, swModeOptions) (by simp [configFields]) sw hsw
  have h3 := hin (dSPIN_CONFIG_EN_VSCOMP, vsCompOptions) (by simp [configFields]) vs hvs
  have h4 := hin (dSPIN_CONFIG_OC_SD, ocSdOptions) (by simp [configFields]) oc hoc
  have h5 := hin (dSPIN_CONFIG_POW_SR, slewRateOptions) (by simp [configFields]) sr hsr
  have h6 := hin (dSPIN_CONFIG_F_PWM_DEC, pwmMulOptions) (by simp [configFields]) mul hmul
  have h7 := hin (dSPIN_CONFIG_F_PWM_INT, pwmDivOptions) (by simp [configFields]) div hdiv
  simp only at h1 h2 h3 h4 h5 h6 h7
  have d : ∀ a ∈ configFieldMasks, ∀ b ∈ configFieldMasks, a ≠ b → a &&& b = 0 := by decide
  have m1 : dSPIN_CONFIG_OSC_SEL ∈ configFieldMasks := by decide
  have m2 : dSPIN_CONFIG_SW_MODE ∈ configFieldMasks := by decide
  have m3 : dSPIN_CONFIG_EN_VSCOMP ∈ configFieldMasks := by decide
  have m4 : dSPIN_CONFIG_OC_SD ∈ configFieldMasks := by decide
  have m5 : dSPIN_CONFIG_POW_SR ∈ configFieldMasks := by decide
  have m6 : dSPIN_CONFIG_F_PWM_DEC ∈ configFieldMasks := by decide
  have m7 : dSPIN_CONFIG_F_PWM_INT ∈ configFieldMasks := by decide
  simp only [Nat.and_distrib_right]
  refine ⟨?_, ?_, ?_, ?_, ?_, ?_, ?_⟩
  · rw [h1, and_other_mask div _ _ h7 (d _ m7 _ m1 (by decide)),
      and_other_mask mul _ _ h6 (d _ m6 _ m1 (by decide)),
      and_other_mask sr _ _ h5 (d _ m5 _ m1 (by decide)),
      and_other_mask oc _ _ h4 (d _ m4 _ m1 (by decide)),
      and_other_mask vs _ _ h3 (d _ m3 _ m1 (by decide)),
      and_other_mask sw _ _ h2 (d _ m2 _ m1 (by decide))]
    simp
  · rw [h2, and_other_mask div _ _ h7 (d _ m7 _ m2 (by decide)),
      and_other_mask mul _ _ h6 (d _ m6 _ m2 (by decide)),
      and_other_mask sr _ _ h5 (d _ m5 _ m2 (by decide)),
      and_other_mask oc _ _ h4 (d _ m4 _ m2 (by decide)),
      and_other_mask vs _ _ h3 (d _ m3 _ m2 (by decide)),
      and_other_mask osc _ _ h1 (d _ m1 _ m2 (by decide))]
    simp
  · rw [h3, and_other_mask div _ _ h7 (d _ m7 _ m3 (by decide)),
      and_other_mask mul _ _ h6 (d _ m6 _ m3 (by decide)),
      and_other_mask sr _ _ h5 (d _ m5 _ m3 (by decide)),
      and_other_mask oc _ _ h4 (d _ m4 _ m3 (by decide)),
      and_other_mask sw _ _ h2 (d _ m2 _ m3 (by decide)),
      and_other_mask osc _ _ h1 (d _ m1 _ m3 (by decide))]
    simp
  · rw [h4, and_other_mask div _ _ h7 (d _ m7 _ m4 (by decide)),
      and_other_mask mul _ _ h6 (d _ m6 _ m4 (by decide)),
      and_other_mask sr _ _ h5 (d _ m5 _ m4 (by decide)),
      and_other_mask vs _ _ h3 (d _ m3 _ m4 (by decide)),
      and_other_mask sw _ _ h2 (d _ m2 _ m4 (by decide)),
      and_other_mask osc _ _ h1 (d _ m1 _ m4 (by decide))]
    simp
  · rw [h5, and_other_mask div _ _ h7 (d _ m7 _ m5 (by decide)),
      and_other_mask mul _ _ h6 (d _ m6 _ m5 (by decide)),
      and_other_mask oc _ _ h4 (d _ m4 _ m5 (by decide)),
      and_other_mask vs _ _ h3 (d _ m3 _ m5 (by decide)),
      and_other_mask sw _ _ h2 (d _ m2 _ m5 (by decide)),
      and_other_mask osc _ _ h1 (d _ m1 _ m5 (by decide))]
    simp
  · rw [h6, and_other_mask div _ _ h7 (d _ m7 _ m6 (by decide)),
      and_other_mask sr _ _ h5 (d _ m5 _ m6 (by decide)),
      and_other_mask oc _ _ h4 (d _ m4 _ m6 (by decide)),
      and_other_mask vs _ _ h3 (d _ m3 _ m6 (by decide)),
      and_other_mask sw _ _ h2 (d _ m2 _ m6 (by decide)),
      and_other_mask osc _ _ h1 (d _ m1 _ m6 (by decide))]
    simp
  · rw [h7, and_other_mask mul _ _ h6 (d _ m6 _ m7 (by decide)),
      and_other_mask sr _ _ h5 (d _ m5 _ m7 (by decide)),
      and_other_mask oc _ _ h4 (d _ m4 _ m7 (by decide)),
      and_other_mask vs _ _ h3 (d _ m3 _ m7 (by decide)),
      and_other_mask sw _ _ h2 (d _ m2 _ m7 (by decide)),
      and_other_mask osc _ _ h1 (d _ m1 _ m7 (by decide))]
    simp

/-! ## Literal arguments of the demos -/

/-- The calls of main in dSPIN_main.c: it returns after the first Move. -/
theorem main_main_calls (sup : Support) (chip : Chip) (initStatus : Int) :
    (dSPIN_main_main sup chip initStatus).halt = none ∧
    calls (dSPIN_main_main sup chip initStatus).trace =
      [.dSPIN_init, .dSPIN_GetParam dSPIN_CONFIG,
       .dSPIN_SetParam dSPIN_STEP_MODE stepModeValue,
       .dSPIN_SetParam dSPIN_MAX_SPEED (sup.MaxSpdCalc 400),
       .dSPIN_SetParam dSPIN_FS_SPD (sup.FSCalc 300),
       .dSPIN_SetParam dSPIN_ACC 0x7ff,
       .dSPIN_SetParam dSPIN_OCD_TH dSPIN_OCD_TH_3000mA,
       .dSPIN_SetParam dSPIN_CONFIG mainConfigValue,
       .dSPIN_SetParam dSPIN_KVAL_RUN 0x9F,
       .dSPIN_GetStatus, .dSPIN_Move FWD 446200] := by
  unfold dSPIN_main_main
  dsimp only
  split
  · simp only [emit_halt, start_halt, emit_trace, start_trace]
    simp [Event.isCall]
  · simp only [emit_halt, start_halt, emit_trace, start_trace]
    simp [Event.isCall]

/-- The register writes of move and of run in dSPIN_run.c come before the
poll of the busy line: each is in the trace of every call. -/
theorem run_literal_calls_issued (sup : Support) (chip : Chip) (fuel : Nat)
    (a b c : Int) (m : Machine) :
    (∀ e ∈ moveLiteralCalls, e ∈ (move sup chip fuel a b c m).trace) ∧
    (∀ e ∈ runLiteralCalls, e ∈ (run sup chip fuel a b m).trace) := by
  constructor
  · unfold move
    simp only [waitBusy, emit_reads, ite_emit_reads]
    cases awaitHigh chip.BUSYN fuel m.reads <;> simp [moveLiteralCalls]
  · unfold run
    simp only [waitBusy, emit_reads, ite_emit_reads]
    cases awaitHigh chip.BUSYN fuel m.reads <;> simp [runLiteralCalls]

/-- C23: every literal value the three demo programs pass to a register write
or a motion command fits the target's bit width, so masking it to that width
leaves it unchanged: the ACC values 0x7ff and 0x040 are at most 0xFFF (12
bits), the FS_SPD value 0x3FF is at most 0x3FF (10 bits), the STEP_MODE value
is at most 0xFF (8 bits), the CONFIG values are at most 0xFFFF (16 bits), the
OCD_TH and KVAL_RUN values fit 4 and 8 bits, and the Move distances 200, 1200
and 446200 are below 2^22. The calls that carry these values are the ones the
programs make (the Move of 1200 steps stands after the return of main in
dSPIN_main.c). -/
theorem C23_demo_literals_fit (sup : Support) (chip : Chip) (fuel : Nat)
    (initStatus a b c : Int) (m : Machine) :
    (∀ e ∈ testLiteralCalls ++ mainLiteralCalls ++ moveLiteralCalls ++ runLiteralCalls,
      e.fits = true) ∧
    (∀ e ∈ testLiteralCalls ++ mainLiteralCalls ++ moveLiteralCalls ++ runLiteralCalls,
      ∃ w, targetWidth e = some w ∧ e.value < 2 ^ w ∧ e.value &&& (2 ^ w - 1) = e.value) ∧
    ((testLiteralCalls ++ mainLiteralCalls ++ moveLiteralCalls ++ runLiteralCalls).map
        fun e => (targetWidth e, e.value)) =
      [(some 8, 0x10), (some 12, 0x7ff), (some 4, 0x07), (some 16, 0x1E00), (some 8, 0x9F),
       (some 22, 200), (some 22, 200),
       (some 8, 0x10), (some 12, 0x7ff), (some 4, 0x07), (some 16, 0x1E00), (some 8, 0x9F),
       (some 22, 446200), (some 22, 1200),
       (some 8, 0x10), (some 10, 0x3FF), (some 12, 0x040), (some 4, 0x04),
       (some 16, 0x1E90), (some 8, 0xaF),
       (some 8, 0x10), (some 12, 0x040), (some 4, 0x04), (some 16, 0x1E90),
       (some 8, 0xaF)] ∧
    (0x7ff ≤ 0xFFF ∧ 0x040 ≤ 0xFFF ∧ 0x3FF ≤ 0x3FF ∧ stepModeValue ≤ 0xFF ∧
      testConfigValue ≤ 0xFFFF ∧ mainConfigValue ≤ 0xFFFF ∧ moveConfigValue ≤ 0xFFFF ∧
      runConfigValue ≤ 0xFFFF ∧ 200 < 2 ^ 22 ∧ mainUnreachedMoveDistance < 2 ^ 22 ∧
      446200 < 2 ^ 22) ∧
    (∀ e ∈ testLiteralCalls, e ∈ testCalls sup) ∧
    (∀ e ∈ mainLiteralCalls, e ≠ .dSPIN_Move FWD mainUnreachedMoveDistance →
      e ∈ (dSPIN_main_main sup chip initStatus).trace) ∧
    Event.dSPIN_Move FWD mainUnreachedMoveDistance ∉
      (dSPIN_main_main sup chip initStatus).trace ∧
    (∀ e ∈ moveLiteralCalls, e ∈ (move sup chip fuel a b c m).trace) ∧
    (∀ e ∈ runLiteralCalls, e ∈ (run sup chip fuel a b m).trace) := by
  have hfit : ∀ e ∈ testLiteralCalls ++ mainLiteralCalls ++ moveLiteralCalls
      ++ runLiteralCalls, e.fits = true := by decide
  have h1 : stepModeValue = 0x10 := by decide
  have h2 : testConfigValue = 0x1E00 := by decide
  have h3 : dSPIN_OCD_TH_3000mA = 0x07 := by decide
  refine ⟨hfit, ?_, by decide, by decide, ?_, ?_, ?_,
    (run_literal_calls_issued sup chip fuel a b c m).1,
    (run_literal_calls_issued sup chip fuel a b c m).2⟩
  · intro e he
    have := hfit e he
    unfold Event.fits at this
    cases hw : targetWidth e with
    | none => simp [hw] at this
    | some w =>
      simp only [hw, Bool.and_eq_true, decide_eq_true_eq] at this
      exact ⟨w, rfl, this.1, this.2⟩
  · simp [testLiteralCalls, testCalls, h1, h2, h3]
  · unfold dSPIN_main_main
    dsimp only
    split <;> simp only [emit_trace, start_trace] <;>
      simp [mainLiteralCalls, mainUnreachedMoveDistance]
  · unfold dSPIN_main_main
    dsimp only
    split <;> simp only [emit_trace, start_trace] <;>
      simp [mainUnreachedMoveDistance]

/-! ## The CONFIG write of the test and main demos -/

@[simp] theorem writesTo_nil (p : Nat) : writesTo p [] = [] := rfl

theorem writesTo_cons (p : Nat) (e : Event) (es : List Event) :
    writesTo p (e :: es) =
      (match e with
        | .dSPIN_SetParam q v => if q = p then [v] else []
        | _ => []) ++ writesTo p es := by
  cases e with
  | dSPIN_SetParam q v =>
    by_cases h : q = p <;> simp [writesTo, List.filterMap_cons, h]
  | _ => simp [writesTo, List.filterMap_cons]

@[simp] theorem writesTo_append (p : Nat) (a b : List Event) :
    writesTo p (a ++ b) = writesTo p a ++ writesTo p b := by
  simp [writesTo]

@[simp] theorem writesTo_ite_printf (p : Nat) (c : Prop) [Decidable c] (f : String)
    (args : List Int) : writesTo p (if c then [Event.printf f args] else []) = [] := by
  split <;> simp [writesTo]

/-- The register writes of main in dSPIN_test.c all come before its first poll
of the busy line: every run writes the one value `testConfigValue` to CONFIG. -/
theorem test_main_config_write (sup : Support) (chip : Chip) (fuel : Nat) :
    writesTo dSPIN_CONFIG (dSPIN_test_main sup chip fuel).trace = [testConfigValue] := by
  have n1 : dSPIN_STEP_MODE ≠ dSPIN_CONFIG := by decide
  have n2 : dSPIN_MAX_SPEED ≠ dSPIN_CONFIG := by decide
  have n3 : dSPIN_FS_SPD ≠ dSPIN_CONFIG := by decide
  have n4 : dSPIN_ACC ≠ dSPIN_CONFIG := by decide
  have n5 : dSPIN_OCD_TH ≠ dSPIN_CONFIG := by decide
  have n6 : dSPIN_KVAL_RUN ≠ dSPIN_CONFIG := by decide
  unfold dSPIN_test_main
  simp only [waitBusy, emit_reads, start_reads, ite_emit_reads]
  cases awaitHigh chip.BUSYN fuel 0 with
  | none => simp [writesTo_cons, n1, n2, n3, n4, n5, n6]
  | some k1 =>
    simp only [emit_reads]
    cases awaitHigh chip.BUSYN fuel k1 with
    | none => simp [writesTo_cons, n1, n2, n3, n4, n5, n6]
    | some k2 =>
      simp only [emit_reads]
      cases awaitHigh chip.BUSYN fuel k2 with
      | none => simp [writesTo_cons, n1, n2, n3, n4, n5, n6]
      | some k3 =>
        simp only [emit_reads]
        cases awaitHigh chip.BUSYN fuel k3 with
        | none => simp [writesTo_cons, n1, n2, n3, n4, n5, n6]
        | some k4 =>
          simp only [emit_reads]
          cases awaitHigh chip.BUSYN fuel k4 with
          | none => simp [writesTo_cons, n1, n2, n3, n4, n5, n6]
          | some k5 => simp [writesTo_cons, n1, n2, n3, n4, n5, n6]

/-- Main of dSPIN_main.c writes the one value `mainConfigValue` to CONFIG. -/
theorem main_main_config_write (sup : Support) (chip : Chip) (initStatus : Int) :
    writesTo dSPIN_CONFIG (dSPIN_main_main sup chip initStatus).trace =
      [mainConfigValue] := by
  have n1 : dSPIN_STEP_MODE ≠ dSPIN_CONFIG := by decide
  have n2 : dSPIN_MAX_SPEED ≠ dSPIN_CONFIG := by decide
  have n3 : dSPIN_FS_SPD ≠ dSPIN_CONFIG := by decide
  have n4 : dSPIN_ACC ≠ dSPIN_CONFIG := by decide
  have n5 : dSPIN_OCD_TH ≠ dSPIN_CONFIG := by decide
  have n6 : dSPIN_KVAL_RUN ≠ dSPIN_CONFIG := by decide
  unfold dSPIN_main_main
  dsimp only
  split <;> simp only [emit_trace, start_trace] <;>
    simp [writesTo_cons, n1, n2, n3, n4, n5, n6]

/-- C16: the CONFIG value written by main of dSPIN_test.c and by main of
dSPIN_main.c (the one value either program writes to the CONFIG register, in
every run) equals 0x1E00 and decodes to the settings the comment lists:
F_PWM_INT = PWM_DIV_1, F_PWM_DEC = PWM_MUL_2, POW_SR = SR_290V_us,
OC_SD = OC_SD_DISABLE, EN_VSCOMP = VS_COMP_DISABLE, SW_MODE = SW_HARD_STOP,
OSC_SEL = INT_16MHZ. -/
theorem C16_test_config_decodes (sup : Support) (chip : Chip) (fuel : Nat)
    (initStatus : Int) :
    writesTo dSPIN_CONFIG (dSPIN_test_main sup chip fuel).trace = [0x1E00] ∧
    writesTo dSPIN_CONFIG (dSPIN_main_main sup chip initStatus).trace = [0x1E00] ∧
    Event.dSPIN_SetParam dSPIN_CONFIG 0x1E00 ∈ (dSPIN_test_main sup chip fuel).trace ∧
    Event.dSPIN_SetParam dSPIN_CONFIG 0x1E00 ∈
      (dSPIN_main_main sup chip initStatus).trace ∧
    testConfigValue = 0x1E00 ∧ mainConfigValue = 0x1E00 ∧
    testConfigValue &&& dSPIN_CONFIG_F_PWM_INT = dSPIN_CONFIG_PWM_DIV_1 ∧
    testConfigValue &&& dSPIN_CONFIG_F_PWM_DEC = dSPIN_CONFIG_PWM_MUL_2 ∧
    testConfigValue &&& dSPIN_CONFIG_POW_SR = dSPIN_CONFIG_SR_290V_us ∧
    testConfigValue &&& dSPIN_CONFIG_OC_SD = dSPIN_CONFIG_OC_SD_DISABLE ∧
    testConfigValue &&& dSPIN_CONFIG_EN_VSCOMP = dSPIN_CONFIG_VS_COMP_DISABLE ∧
    testConfigValue &&& dSPIN_CONFIG_SW_MODE = dSPIN_CONFIG_SW_HARD_STOP ∧
    testConfigValue &&& dSPIN_CONFIG_OSC_SEL = dSPIN_CONFIG_INT_16MHZ ∧
    mainConfigValue &&& dSPIN_CONFIG_F_PWM_INT = dSPIN_CONFIG_PWM_DIV_1 ∧
    mainConfigValue &&& dSPIN_CONFIG_F_PWM_DEC = dSPIN_CONFIG_PWM_MUL_2 ∧
    mainConfigValue &&& dSPIN_CONFIG_POW_SR = dSPIN_CONFIG_SR_290V_us ∧
    mainConfigValue &&& dSPIN_CONFIG_OC_SD = dSPIN_CONFIG_OC_SD_DISABLE ∧
    mainConfigValue &&& dSPIN_CONFIG_EN_VSCOMP = dSPIN_CONFIG_VS_COMP_DISABLE ∧
    mainConfigValue &&& dSPIN_CONFIG_SW_MODE = dSPIN_CONFIG_SW_HARD_STOP ∧
    mainConfigValue &&& dSPIN_CONFIG_OSC_SEL = dSPIN_CONFIG_INT_16MHZ := by
  have ht : testConfigValue = 0x1E00 := by decide
  have hm : mainConfigValue = 0x1E00 := by decide
  have wt := test_main_config_write sup chip fuel
  have wm := main_main_config_write sup chip initStatus
  rw [ht] at wt
  rw [hm] at wm
  have hmem : ∀ t : List Event, writesTo dSPIN_CONFIG t = [0x1E00] →
      Event.dSPIN_SetParam dSPIN_CONFIG 0x1E00 ∈ t := by
    intro t h
    have h1 : (0x1E00 : Nat) ∈ writesTo dSPIN_CONFIG t := by rw [h]; simp
    unfold writesTo at h1
    rw [List.mem_filterMap] at h1
    obtain ⟨e, he, hv⟩ := h1
    cases e <;> simp at hv
    case dSPIN_SetParam p v =>
      obtain ⟨hp, hv⟩ := hv
      subst hp hv
      exact he
  refine ⟨wt, wm, hmem _ wt, hmem _ wm, ht, hm, ?_⟩
  decide

end DSpin
